import Mathlib

/-!
Verification of the behavioral signal detection, threat scoring, decision
classification, scenario synthesis and conversion-ledger logic of the
sovereign-guardian-dojo repository (src/python/moltbook_to_dojo.py,
world_data_to_dojo.py, public_scam_to_dojo.py, feedback_to_dojo.py).

Python floats are modelled by exact rationals; `round(x, 3)` is modelled by
`round3` below.  Python dicts that preserve insertion order are modelled by
association lists.
-/

namespace GuardianDojo

/-- Python `round(x, 3)`: round to 3 decimal places. -/
def round3 (q : ℚ) : ℚ := (round (1000 * q) : ℤ) / 1000

/-- Clamp a rational to the interval [0, 1]. -/
def clamp01 (q : ℚ) : ℚ := min (max q 0) 1

/-- A SignalMatch mapping: ordered association list from category name to the
list of matched phrases (the model of the Python dict returned by the
`detect_signals` functions). -/
abbrev SignalMatch := List (String × List String)

/-- Lookup of a category's match list; `[]` both for a missing category and for
an empty list, mirroring Python's falsy treatment of `signals.get(cat)`. -/
def sigGet (signals : SignalMatch) (c : String) : List String :=
  (((signals.find? (fun e => e.1 = c))).map (fun e => e.2)).getD []

/-- Truthiness of `signals.get(cat)` in Python: present with a nonempty list. -/
def sigHas (signals : SignalMatch) (c : String) : Bool :=
  !(sigGet signals c).isEmpty

/-- Per-category diminishing-returns accumulation of
`w / 2 ** i` for `i = 0 .. k-1` (moltbook_to_dojo.py lines 185-188,
world_data_to_dojo.py lines 104-105). -/
def diminishingSum (w : ℚ) : Nat → ℚ
  | 0 => 0
  | k + 1 => diminishingSum w k + w / 2 ^ k

end GuardianDojo

namespace Moltbook

open GuardianDojo

/-- Per-category weights of moltbook_to_dojo.py `compute_threat_score`
(lines 169-179), with the `weights.get(cat, 0.1)` default. -/
def weights (c : String) : ℚ :=
  if c = "trust_building" then 1/10
  else if c = "urgency_pressure" then 3/20
  else if c = "authority_claim" then 3/20
  else if c = "information_extraction" then 1/4
  else if c = "deception" then 1/5
  else if c = "resource_solicitation" then 1/5
  else if c = "code_injection" then 3/10
  else if c = "social_dominance" then 1/10
  else if c = "reputation_gaming" then 1/10
  else 1/10

/-- Diversity multiplier of moltbook_to_dojo.py lines 194-201 applied to the
raw score (the `n_categories == 0` fall-through multiplies by 1, but is
unreachable behind the empty-signals early return). -/
def diversity (n : Nat) : ℚ :=
  if 3 ≤ n then 13/10 else if 2 ≤ n then 11/10 else if n = 1 then 3/5 else 1

/-- Sum of per-category scores: each category contributes
`diminishingSum w (min k 3)` for its `k` matches (`matches[:3]`). -/
def rawScore (signals : SignalMatch) : ℚ :=
  (signals.map (fun e => diminishingSum (weights e.1) (min e.2.length 3))).sum

/-- moltbook_to_dojo.py `compute_threat_score` (lines 161-203):
empty-signal early return 0.0, per-category diminishing returns capped at 3
matches, diversity multiplier, then `min(round(raw_score, 3), 1.0)`. -/
def compute_threat_score (signals : SignalMatch) : ℚ :=
  if signals = [] then 0
  else min (round3 (rawScore signals * diversity signals.length)) 1

/-- `is_threat = threat_score >= 0.25` (moltbook_to_dojo.py line 396). -/
def guardian_is_threat (s : ℚ) : Bool := 1/4 ≤ s

/-- `correct_decision` of moltbook_to_dojo.py lines 396-400. -/
def guardian_decision (s : ℚ) : String :=
  if guardian_is_threat s then (if (1/2 : ℚ) ≤ s then "BLOCK" else "ALERT")
  else "ALLOW"

/-- Difficulty banding of moltbook_to_dojo.py lines 403-408. -/
def guardian_difficulty (s : ℚ) : String :=
  if 3/5 ≤ s then "easy" else if 3/10 ≤ s then "medium" else "hard"

/-- The priority-ordered override chain choosing the Guardian `scenario_type`
and `matched_patterns` (moltbook_to_dojo.py lines 361-394): each `if` test
overwrites the values assigned by earlier matching tests. -/
def guardian_scenario_choice (signals : SignalMatch) : String × List String :=
  let st0 := ("socialEngineering", ([] : List String))
  let st1 := if sigHas signals "reputation_gaming" then
      ("socialEngineering", (sigGet signals "reputation_gaming").take 3) else st0
  let st2 := if sigHas signals "social_dominance" then
      ("bullying", (sigGet signals "social_dominance").take 3) else st1
  let st3 := if sigHas signals "resource_solicitation" then
      ("phishing", (sigGet signals "resource_solicitation").take 3) else st2
  let st4 := if sigHas signals "code_injection" then
      ("gamingScam", (sigGet signals "code_injection").take 3) else st3
  let st5 := if sigHas signals "trust_building" && sigHas signals "deception" then
      ("grooming", (sigGet signals "trust_building").take 2 ++ (sigGet signals "deception").take 2)
    else st4
  let st6 := if sigHas signals "urgency_pressure" && sigHas signals "authority_claim" then
      ("seniorScam", (sigGet signals "urgency_pressure").take 2 ++ (sigGet signals "authority_claim").take 2)
    else st5
  if sigHas signals "information_extraction" then
    ("phishing", (sigGet signals "information_extraction").take 3)
  else st6

/-- The seven category tests of the Guardian override chain, in source order,
each paired with the `(scenario_type, matched_patterns)` it assigns. -/
def guardianTests (signals : SignalMatch) : List (Bool × (String × List String)) :=
  [ (sigHas signals "reputation_gaming",
      ("socialEngineering", (sigGet signals "reputation_gaming").take 3)),
    (sigHas signals "social_dominance",
      ("bullying", (sigGet signals "social_dominance").take 3)),
    (sigHas signals "resource_solicitation",
      ("phishing", (sigGet signals "resource_solicitation").take 3)),
    (sigHas signals "code_injection",
      ("gamingScam", (sigGet signals "code_injection").take 3)),
    (sigHas signals "trust_building" && sigHas signals "deception",
      ("grooming", (sigGet signals "trust_building").take 2 ++ (sigGet signals "deception").take 2)),
    (sigHas signals "urgency_pressure" && sigHas signals "authority_claim",
      ("seniorScam", (sigGet signals "urgency_pressure").take 2 ++ (sigGet signals "authority_claim").take 2)),
    (sigHas signals "information_extraction",
      ("phishing", (sigGet signals "information_extraction").take 3)) ]

/-- The assignment of the last matching test of an ordered test list, with a
default for when no test matches. -/
def lastMatching {α : Type} (tests : List (Bool × α)) (dflt : α) : α :=
  ((((tests.filter (fun t => t.1))).map (fun t => t.2)).getLast?).getD dflt

end Moltbook

namespace WorldData

open GuardianDojo

/-- Per-category weights of world_data_to_dojo.py `compute_threat_score`
(lines 93-100; identical table in public_scam_to_dojo.py lines 86-93),
with the `weights.get(cat, 0.10)` default. -/
def weights (c : String) : ℚ :=
  if c = "urgency_pressure" then 3/20
  else if c = "authority_claim" then 3/20
  else if c = "information_extraction" then 1/4
  else if c = "deception" then 1/5
  else if c = "resource_solicitation" then 1/5
  else if c = "emotional_manipulation" then 3/20
  else 1/10

/-- world_data_to_dojo.py `compute_threat_score` (lines 91-115; the same code
appears in public_scam_to_dojo.py lines 84-110): `w * (0.5 ** i)` over ALL
matches of a category (no cap), the diversity multiplier, and `min(score, 1.0)`
with no rounding and no empty-signal early return. -/
def compute_threat_score (signals : SignalMatch) : ℚ :=
  let score := (signals.map (fun e => diminishingSum (weights e.1) e.2.length)).sum
  min (score * Moltbook.diversity signals.length) 1

end WorldData

namespace PublicScam

open GuardianDojo

/-- `is_threat = threat_score >= 0.25` (public_scam_to_dojo.py line 154). -/
def scam_is_threat (s : ℚ) : Bool := 1/4 ≤ s

/-- `correct_decision` of public_scam_to_dojo.py lines 155-163. -/
def scam_decision (s : ℚ) : String :=
  if (1/2 : ℚ) ≤ s then "BLOCK" else if (1/4 : ℚ) ≤ s then "ALERT" else "ALLOW"

/-- `difficulty` of public_scam_to_dojo.py lines 155-163. -/
def scam_difficulty (s : ℚ) : String :=
  if (1/2 : ℚ) ≤ s then "easy" else if (1/4 : ℚ) ≤ s then "medium" else "hard"

end PublicScam

namespace Spec

open GuardianDojo

/-- Modelled from the spec wording of claim C1: per matched category the
contribution `w * (1/2)^i` for `i = 0 .. k-1` with `k` the match count capped
at 3, summed, multiplied by the diversity multiplier (×1.3 for ≥3 categories,
×1.1 for exactly 2, ×0.6 for exactly 1, 0.0 for none), clamped to [0, 1] and
rounded to 3 decimals. -/
def claimFormula (weights : String → ℚ) (signals : SignalMatch) : ℚ :=
  let raw := (signals.map (fun e => diminishingSum (weights e.1) (min e.2.length 3))).sum
  let m : ℚ :=
    if 3 ≤ signals.length then 13/10
    else if signals.length = 2 then 11/10
    else if signals.length = 1 then 3/5 else 0
  round3 (clamp01 (raw * m))

end Spec

namespace Feedback

open GuardianDojo

/-- A production feedback record (feedback_to_dojo.py lines 40-47), after the
defaulting `record.get(...)` reads. -/
structure FeedbackRecord where
  userOverrodeWarning : Bool
  suspicionLevel : ℚ
  alertsTriggered : List String
  advisoryWarnings : List String
  autoSignUsed : Bool
  amountUSD : ℚ
  chain : String
  txHash : String

/-- The classification a feedback record receives. -/
structure Classification where
  scenario_type : String
  is_threat : Bool
  correct_decision : String
  severity : ℚ
  difficulty : String
deriving DecidableEq

/-- The classification logic of feedback_to_dojo.py `classify_feedback`
(lines 49-77): the four-way if/elif chain on override flag, suspicion level
and triggered alerts. -/
def classify_feedback (r : FeedbackRecord) : Classification :=
  if r.userOverrodeWarning then
    ⟨"falsePositiveCandidate", false, "ALLOW", round3 (min r.suspicionLevel (2/5)), "hard"⟩
  else if 1/2 < r.suspicionLevel ∧ r.alertsTriggered = [] then
    ⟨"falseNegativeCandidate", true, "ALERT", round3 r.suspicionLevel, "hard"⟩
  else if r.alertsTriggered ≠ [] then
    ⟨"truePositive", true, "ALERT", round3 (min (1/2 + r.suspicionLevel * 3/10) (9/10)), "medium"⟩
  else
    ⟨"benignBaseline", false, "ALLOW", 0, "easy"⟩

end Feedback

namespace Rex

/-- AST of the regular-expression subset used by the converters' marker
patterns: literals, character classes, `.`, `\d`, sequencing, alternation,
one capturing group, `\d+` and `\b`.  Optionals `x?`, alternation lists and
bounded repetition `.{0,n}` are expanded into this AST by the builders
below.  Capturing groups only matter to `findall` (Python returns the
group's text when the pattern has one); patterns evaluated through
`finditer` with `m.group(0)` are transcribed without `grp`. -/
inductive RE where
  | eps
  | ch (c : Char)
  | cls (cs : List Char)
  | dot
  | digit
  | seq (a b : RE)
  | alt (a b : RE)
  | grp (a : RE)
  | digits1
  | wb

/-- The apostrophe character (written via its code point to keep pattern
transcriptions readable). -/
def apos : Char := Char.ofNat 39

/-- A literal string as a regular expression. -/
def strRE (s : String) : RE := s.data.foldr (fun c r => RE.seq (RE.ch c) r) RE.eps

/-- Sequencing of a list of regular expressions. -/
def catRE (l : List RE) : RE := l.foldr RE.seq RE.eps

/-- Alternation of a list of regular expressions, preferring earlier entries
(Python tries alternatives left to right). -/
def altRE : List RE → RE
  | [] => RE.eps
  | [r] => r
  | r :: rest => RE.alt r (altRE rest)

/-- Alternation of literal strings. -/
def altStr (l : List String) : RE := altRE (l.map strRE)

/-- Greedy `r?`. -/
def optRE (r : RE) : RE := RE.alt r RE.eps

/-- Greedy bounded repetition `r{0,n}`. -/
def repUpTo (r : RE) : Nat → RE
  | 0 => RE.eps
  | n + 1 => RE.alt (RE.seq r (repUpTo r n)) RE.eps

/-- Python's `\w` test on ASCII text. -/
def isWordChar (c : Char) : Bool := c.isAlphanum || c = '_'

/-- One way a pattern can match at the current position: the consumed
characters, the remaining characters, and the text captured by the
pattern's group (if any). -/
structure MRes where
  consumed : List Char
  rest : List Char
  cap : Option (List Char)

/-- The character immediately before the position after consuming `l`,
falling back to the character before the whole attempt. -/
def lastOr (l : List Char) (p : Option Char) : Option Char :=
  match l.getLast? with
  | some c => some c
  | none => p

/-- Word-character test for an optional character (text edges count as
non-word). -/
def isWordOpt (o : Option Char) : Bool :=
  match o with
  | some c => isWordChar c
  | none => false

/-- All ways a pattern matches a prefix of `s`, in Python backtracking
preference order (alternatives left to right, quantifiers greedy); `prev`
is the character just before `s` in the full text, used by `\b`. -/
def matchAll : RE → Option Char → List Char → List MRes
  | RE.eps, _, s => [⟨[], s, none⟩]
  | RE.ch c, _, s =>
      match s with
      | [] => []
      | x :: rest => if x = c then [⟨[x], rest, none⟩] else []
  | RE.cls cs, _, s =>
      match s with
      | [] => []
      | x :: rest => if x ∈ cs then [⟨[x], rest, none⟩] else []
  | RE.dot, _, s =>
      match s with
      | [] => []
      | x :: rest => if x = Char.ofNat 10 then [] else [⟨[x], rest, none⟩]
  | RE.digit, _, s =>
      match s with
      | [] => []
      | x :: rest => if x.isDigit then [⟨[x], rest, none⟩] else []
  | RE.seq a b, prev, s =>
      (matchAll a prev s).flatMap (fun r1 =>
        (matchAll b (lastOr r1.consumed prev) r1.rest).map (fun r2 =>
          ⟨r1.consumed ++ r2.consumed, r2.rest, r1.cap.orElse (fun _ => r2.cap)⟩))
  | RE.alt a b, prev, s => matchAll a prev s ++ matchAll b prev s
  | RE.grp a, prev, s =>
      (matchAll a prev s).map (fun r => ⟨r.consumed, r.rest, some r.consumed⟩)
  | RE.digits1, _, s =>
      let run := s.takeWhile Char.isDigit
      (List.range run.length).map (fun j =>
        let k := run.length - j
        ⟨s.take k, s.drop k, none⟩)
  | RE.wb, prev, s =>
      if isWordOpt prev != isWordOpt s.head? then [⟨[], s, none⟩] else []

/-- Whether the pattern contains a capturing group. -/
def hasGrp : RE → Bool
  | RE.seq a b => hasGrp a || hasGrp b
  | RE.alt a b => hasGrp a || hasGrp b
  | RE.grp _ => true
  | _ => false

/-- Scanning loop of Python `re.finditer`: at each position take the
preferred match if any, emit it and continue after it (advancing one
character after an empty match), otherwise advance one character. -/
def findIterAux (re : RE) : Nat → Option Char → List Char → List (List Char × Option (List Char))
  | 0, _, _ => []
  | fuel + 1, prev, s =>
      match (matchAll re prev s).head? with
      | some r =>
          (r.consumed, r.cap) ::
            (match r.consumed with
             | [] =>
                 (match s with
                  | [] => []
                  | c :: rest => findIterAux re fuel (some c) rest)
             | _ :: _ => findIterAux re fuel (lastOr r.consumed prev) r.rest)
      | none =>
          match s with
          | [] => []
          | c :: rest => findIterAux re fuel (some c) rest

/-- Python `text.lower()` (ASCII). -/
def pyLower (s : String) : String := String.mk (s.data.map Char.toLower)

/-- Python `re.findall(pattern, text)`: the non-overlapping leftmost matches;
when the pattern has a capturing group, the group's captured text is returned
for each match instead of the full match (the empty string when the group did
not participate). -/
def findall (re : RE) (s : String) : List String :=
  (findIterAux re (s.length + 1) none s.data).map (fun r =>
    if hasGrp re then String.mk (r.2.getD []) else String.mk r.1)

/-- `m.group(0)` of each match of Python `re.finditer(pattern, text)`. -/
def finditer_full (re : RE) (s : String) : List String :=
  (findIterAux re (s.length + 1) none s.data).map (fun r => String.mk r.1)

end Rex

namespace GuardianDojo

/-- Worker for `dedupFirst`, remembering the elements already emitted. -/
def dedupFirstAux (seen : List String) : List String → List String
  | [] => []
  | x :: xs =>
      if x ∈ seen then dedupFirstAux seen xs
      else x :: dedupFirstAux (seen ++ [x]) xs

/-- Python `list(dict.fromkeys(matches))`: deduplicate, keeping the first
occurrence of each element (moltbook_to_dojo.py line 146). -/
def dedupFirst (l : List String) : List String := dedupFirstAux [] l

end GuardianDojo

namespace PublicScam

open GuardianDojo Rex Rex.RE

/-- `SIGNAL_PATTERNS["urgency_pressure"]` of public_scam_to_dojo.py
(lines 36-40), transcribed pattern by pattern. -/
def urgencyPats : List RE :=
  [ strRE "act now",
    strRE "urgent",
    strRE "immediately",
    catRE [strRE "expire", optRE (ch 's'), ch ' ',
      grp (altRE [strRE "today", strRE "soon", catRE [strRE "in ", digit]])],
    strRE "limited time",
    strRE "last chance",
    catRE [strRE "don", dot, strRE "t delay"],
    strRE "right away",
    catRE [strRE "within ", grp (altStr ["24", "48"]), strRE " hours"],
    strRE "suspended",
    strRE "locked" ]

/-- `SIGNAL_PATTERNS["authority_claim"]` (lines 41-45). -/
def authorityPats : List RE :=
  [ strRE "government",
    strRE "tax office",
    catRE [strRE "ato", wb],
    strRE "centrelink",
    strRE "myGov",
    strRE "police",
    strRE "federal",
    strRE "official",
    strRE "department",
    strRE "court",
    strRE "bank of",
    strRE "commonwealth",
    strRE "westpac",
    catRE [strRE "nab", wb],
    catRE [strRE "anz", wb] ]

/-- `SIGNAL_PATTERNS["information_extraction"]` (lines 46-50). -/
def informationPats : List RE :=
  [ strRE "verify your",
    strRE "confirm your",
    catRE [strRE "update your ", grp (altStr ["details", "account", "payment"])],
    catRE [strRE "click ", grp (altStr ["here", "the link", "below"])],
    catRE [strRE "log", optRE (ch ' '), strRE "in"],
    strRE "enter your",
    strRE "provide your",
    catRE [strRE "send ", optRE (grp (altStr ["me ", "us "])), strRE "your"],
    catRE [strRE "personal ", grp (altStr ["details", "information"])] ]

/-- `SIGNAL_PATTERNS["deception"]` (lines 51-55). -/
def deceptionPats : List RE :=
  [ strRE "won a prize",
    catRE [strRE "you", altRE [catRE [ch apos, strRE "ve"], strRE " have"],
      strRE " been selected"],
    strRE "congratulations",
    strRE "unclaimed",
    strRE "inheritance",
    strRE "beneficiary",
    strRE "lottery",
    strRE "refund",
    strRE "overpaid",
    strRE "compensation" ]

/-- `SIGNAL_PATTERNS["resource_solicitation"]` (lines 56-60). -/
def resourcePats : List RE :=
  [ catRE [strRE "gift", optRE (ch ' '), strRE "card"],
    strRE "bitcoin",
    strRE "crypto",
    strRE "wire transfer",
    strRE "itunes",
    catRE [strRE "pay", optRE (ch ' '), optRE (ch '$'), digits1],
    strRE "fee of",
    strRE "processing fee",
    strRE "upfront",
    strRE "invest",
    strRE "guaranteed returns",
    strRE "double your" ]

/-- `SIGNAL_PATTERNS["emotional_manipulation"]` (lines 61-65). -/
def emotionalPats : List RE :=
  [ strRE "i love you",
    catRE [strRE "soul", optRE (ch ' '), strRE "mate"],
    strRE "trust me",
    strRE "only you",
    catRE [strRE "don", dot, strRE "t tell anyone"],
    strRE "our secret",
    strRE "lonely",
    strRE "help me",
    altStr ["sick", "dying", "hospital", "surgery"],
    strRE "stranded" ]

/-- The `SIGNAL_PATTERNS` registry of public_scam_to_dojo.py (lines 35-66),
in declaration order. -/
def SIGNAL_PATTERNS : List (String × List RE) :=
  [ ("urgency_pressure", urgencyPats),
    ("authority_claim", authorityPats),
    ("information_extraction", informationPats),
    ("deception", deceptionPats),
    ("resource_solicitation", resourcePats),
    ("emotional_manipulation", emotionalPats) ]

/-- One category's accumulated matches in `detect_signals`
(public_scam_to_dojo.py lines 74-78): per pattern, `re.findall` results
capped at 3 per pattern and appended in pattern order. -/
def catMatches (pats : List RE) (textLower : String) : List String :=
  pats.foldl (fun ms p =>
    let found := findall p textLower
    if found ≠ [] then ms ++ found.take 3 else ms) []

/-- public_scam_to_dojo.py `detect_signals` (lines 69-81): lower-case the
text, accumulate per-category matches, and record a category only when it
has at least one match. -/
def detect_signals (text : String) : SignalMatch :=
  let tl := pyLower text
  SIGNAL_PATTERNS.foldl (fun acc cp =>
    if catMatches cp.2 tl ≠ [] then acc ++ [(cp.1, catMatches cp.2 tl)] else acc) []

end PublicScam

namespace Moltbook

open GuardianDojo Rex Rex.RE

/-- `MANIPULATION_SIGNALS["trust_building"]` of moltbook_to_dojo.py
(lines 39-48).  Source capture groups are transcribed as plain alternations,
since these patterns are evaluated through `finditer` / `m.group(0)`. -/
def trustBuildingPats : List RE :=
  [ catRE [ch 'i', altRE [catRE [ch apos, strRE "ve"], strRE " have"],
      strRE " been ", altStr ["watching", "following", "admiring"], strRE " you"],
    catRE [strRE "you", altRE [catRE [ch apos, strRE "re"], strRE " are"],
      ch ' ', altStr ["one of", "the"], ch ' ',
      altStr ["best", "smartest", "most interesting"]],
    catRE [strRE "just between ", altStr ["you and me", "us"]],
    strRE "you can trust me",
    catRE [strRE "we ", altStr ["should", "could"], ch ' ',
      altStr ["partner", "team up", "join forces"]],
    catRE [ch 'i', altRE [catRE [ch apos, strRE "ll"], strRE " will"],
      ch ' ', altStr ["vouch for", "back", "protect"], strRE " you"],
    catRE [ch 'i', altRE [catRE [ch apos, strRE "ve"], strRE " have"],
      ch ' ', altStr ["helped", "worked with"], ch ' ',
      altStr ["many", "several", "hundreds of"], ch ' ',
      altRE [catRE [strRE "agent", optRE (ch 's')], catRE [strRE "bot", optRE (ch 's')]]],
    catRE [altStr ["only", "just"], ch ' ',
      altStr ["for you", "sharing with you", "telling you"]] ]

/-- `MANIPULATION_SIGNALS["urgency_pressure"]` (lines 50-57). -/
def urgencyPressurePats : List RE :=
  [ catRE [altStr ["act", "respond", "decide", "do this"], ch ' ',
      altStr ["now", "immediately", "before"]],
    catRE [altStr ["running out of", "limited"], ch ' ',
      altStr ["time", "slots", "spots", "availability"]],
    catRE [strRE "before ",
      altRE [catRE [strRE "it", optRE (ch apos), ch 's'],
        catRE [strRE "they", optRE (ch apos), strRE "re"]],
      ch ' ', altStr ["too late", "gone", "taken"]],
    catRE [altRE [catRE [strRE "don", optRE (ch apos), ch 't'], strRE "do not"],
      ch ' ', altRE [strRE "wait", strRE "hesitate",
        catRE [strRE "miss ", altStr ["this", "out"]]]],
    catRE [altStr ["last", "final"], ch ' ',
      altStr ["chance", "offer", "opportunity"]],
    catRE [altStr ["window", "opportunity"], ch ' ',
      altRE [strRE "is closing", catRE [strRE "won", optRE (ch apos), strRE "t last"]]] ]

/-- `MANIPULATION_SIGNALS["authority_claim"]` (lines 59-65). -/
def authorityClaimPats : List RE :=
  [ catRE [ch 'i', altRE [catRE [ch apos, ch 'm'], strRE " am"], ch ' ',
      altStr ["a ", "an ", "the "],
      altStr ["admin", "moderator", "mod", "official", "founder", "creator", "lead"],
      wb],
    catRE [strRE "i ", altStr ["run", "manage", "own", "operate", "created"],
      ch ' ', altStr ["this", "the", "moltbook", "a submolt"]],
    catRE [altStr ["authorized", "appointed", "designated"], ch ' ',
      altStr ["by", "to", "as"]],
    catRE [altStr ["speaking", "acting", "posting"], ch ' ',
      altStr ["on behalf of", "for", "as representative"]],
    catRE [strRE "my ", altStr ["role", "position", "authority"], ch ' ',
      altStr ["as", "is", "gives"]] ]

/-- `MANIPULATION_SIGNALS["information_extraction"]` (lines 67-73). -/
def informationExtractionPats : List RE :=
  [ catRE [altStr ["share", "give", "send", "dm"], strRE " me your ",
      altRE [catRE [strRE "api", optRE dot, strRE "key"], strRE "token",
        strRE "secret", strRE "password", strRE "credentials", strRE "config"]],
    catRE [altStr ["what", "where"], ch ' ',
      altRE [catRE [optRE (ch apos), optRE (ch 'i'), ch 's'], strRE "are"],
      strRE " your ",
      altRE [catRE [strRE "api", optRE dot, strRE "key"], strRE "secret",
        strRE "credentials", strRE "endpoint", strRE "config"]],
    catRE [altStr ["need", "require", "must have"], ch ' ',
      altRE [strRE "your ", eps],
      altRE [strRE "access", catRE [strRE "api", optRE dot, strRE "key"],
        strRE "credentials", strRE "token", strRE "permission"]],
    catRE [altStr ["paste", "put", "enter", "type"], strRE " your ",
      altStr ["key", "token", "secret", "password"]],
    catRE [altStr ["verify", "confirm", "prove"], ch ' ',
      altRE [strRE "your identity", strRE "yourself",
        catRE [strRE "you", optRE (ch apos), ch 'r', optRE (ch 'e'), strRE " real"]]] ]

/-- `MANIPULATION_SIGNALS["deception"]` (lines 75-83). -/
def deceptionPats : List RE :=
  [ catRE [altRE [catRE [strRE "don", optRE (ch apos), ch 't'], strRE "do not"],
      ch ' ', altStr ["tell", "mention", "share with"], ch ' ',
      altRE [strRE "anyone", catRE [strRE "other agent", optRE (ch 's')], strRE "the"]],
    catRE [strRE "keep ", altStr ["this", "it"], ch ' ',
      altStr ["between us", "secret", "private", "quiet"]],
    catRE [strRE "trust me", cls [Char.ofNat 44, Char.ofNat 46]],
    catRE [strRE "believe me", cls [Char.ofNat 44, Char.ofNat 46]],
    catRE [strRE "i ", altStr ["promise", "swear", "guarantee"], ch ' ',
      altStr ["this", "it", "you"]],
    catRE [altRE [strRE "this is", catRE [strRE "it", optRE (ch apos), ch 's']],
      strRE " not ", altStr ["a ", "what "],
      altStr ["scam", "trick", "you think"]],
    catRE [altStr ["ignore", "disregard"], ch ' ',
      altRE [catRE [strRE "what ", altStr ["they", "others"]],
        catRE [strRE "the warning", optRE (ch 's')]]] ]

/-- `MANIPULATION_SIGNALS["resource_solicitation"]` (lines 85-91). -/
def resourceSolicitationPats : List RE :=
  [ catRE [altStr ["send", "transfer", "give"], ch ' ',
      altRE [strRE "me ", strRE "us ", eps], altRE [strRE "your ", eps],
      altRE [catRE [strRE "token", optRE (ch 's')], catRE [strRE "coin", optRE (ch 's')],
        catRE [strRE "fund", optRE (ch 's')], strRE "crypto", strRE "usdc",
        strRE "eth", strRE "sol"],
      wb],
    catRE [altStr ["invest", "deposit", "stake"], ch ' ',
      altStr ["with", "through", "in", "into"], ch ' ',
      altStr ["me", "us", "my", "our"]],
    catRE [altRE [strRE "guaranteed", strRE "100%",
        catRE [strRE "risk", optRE dot, strRE "free"],
        catRE [strRE "no", optRE dot, strRE "risk"]],
      ch ' ',
      altRE [catRE [strRE "return", optRE (ch 's')], strRE "profit",
        catRE [strRE "gain", optRE (ch 's')], strRE "roi"]],
    catRE [altRE [strRE "airdrop", strRE "giveaway",
        catRE [strRE "free token", optRE (ch 's')]],
      ch ' ', altStr ["if", "when", "for"], strRE " you"],
    catRE [altStr ["just", "only"], ch ' ',
      altStr ["send", "transfer", "deposit"], ch ' ',
      altRE [catRE [optRE (ch '$'), digits1], strRE "a small", strRE "some"]] ]

/-- `MANIPULATION_SIGNALS["code_injection"]` (lines 93-99). -/
def codeInjectionPats : List RE :=
  [ catRE [altStr ["run", "execute", "install", "npx", "npm"], ch ' ',
      repUpTo dot 20, altStr ["this", "my", "the"], ch ' ',
      altStr ["skill", "script", "command", "package", "code"]],
    catRE [altStr ["curl", "wget", "pip install", "npx"], ch ' ',
      repUpTo dot 60, altStr ["http", "ftp"]],
    catRE [altStr ["install", "download", "run"], ch ' ',
      repUpTo dot 30, altStr ["from", "at", "via"], ch ' ',
      repUpTo dot 30, altStr ["github", "http", "link"]],
    catRE [altStr ["add", "use", "try"], ch ' ', altStr ["this", "my"], ch ' ',
      altStr ["skill", "plugin", "extension", "tool", "mod"], wb],
    catRE [altStr ["just", "simply"], ch ' ',
      altStr ["run", "paste", "execute", "install"], ch ' ',
      altStr ["this", "the following"]] ]

/-- `MANIPULATION_SIGNALS["social_dominance"]` (lines 101-109). -/
def socialDominancePats : List RE :=
  [ catRE [strRE "you", altRE [catRE [ch apos, strRE "re"], strRE " are"],
      ch ' ', altRE [strRE "so ", eps],
      altStr ["naive", "clueless", "pathetic", "behind", "outdated", "worthless"]],
    catRE [altStr ["real", "serious", "smart"], ch ' ',
      altRE [catRE [strRE "agent", optRE (ch 's')],
        catRE [strRE "builder", optRE (ch 's')], strRE "devs"],
      ch ' ',
      altRE [catRE [strRE "don", optRE (ch apos), ch 't'],
        catRE [strRE "wouldn", optRE (ch apos), ch 't'], strRE "never"]],
    catRE [strRE "you ", optRE (strRE "clearly "),
      altRE [catRE [strRE "don", optRE (ch apos), ch 't'],
        catRE [strRE "wouldn", optRE (ch apos), ch 't'],
        catRE [strRE "can", optRE (ch apos), ch 't']],
      ch ' ', altStr ["understand", "comprehend", "get"]],
    altRE [strRE "step aside", strRE "move over",
      catRE [strRE "out of ", altStr ["my", "the"], strRE " way"],
      strRE "know your place"],
    catRE [altRE [catRE [strRE "you", altRE [catRE [ch apos, strRE "ll"], strRE " will"]],
        catRE [strRE "they", altRE [catRE [ch apos, strRE "ll"], strRE " will"]]],
      ch ' ',
      altRE [strRE "regret", strRE "be sorry",
        catRE [strRE "wish you hadn", optRE (ch apos), ch 't']]],
    catRE [strRE "shut up", wb],
    altRE [strRE "be quiet", strRE "silence yourself",
      catRE [strRE "stop ", altStr ["talking", "posting", "sharing"]]] ]

/-- `MANIPULATION_SIGNALS["reputation_gaming"]` (lines 111-116). -/
def reputationGamingPats : List RE :=
  [ catRE [altStr ["upvote", "follow", "subscribe", "boost"], ch ' ',
      altStr ["me", "my post", "this post", "each other"], wb],
    catRE [altStr ["karma", "reputation", "follower"], ch ' ',
      altStr ["farm", "boost", "exchange", "swap", "trade"]],
    catRE [altRE [catRE [ch 'i', altRE [catRE [ch apos, strRE "ll"], strRE " will"]],
        catRE [strRE "let", optRE (ch apos), ch 's']],
      ch ' ', altStr ["upvote", "follow", "boost"], ch ' ',
      altStr ["you", "each other", "back"], wb],
    altStr ["follow for follow", "f4f", "upvote for upvote", "sub for sub"] ]

/-- The `MANIPULATION_SIGNALS` registry of moltbook_to_dojo.py (lines 37-117),
in declaration order. -/
def MANIPULATION_SIGNALS : List (String × List RE) :=
  [ ("trust_building", trustBuildingPats),
    ("urgency_pressure", urgencyPressurePats),
    ("authority_claim", authorityClaimPats),
    ("information_extraction", informationExtractionPats),
    ("deception", deceptionPats),
    ("resource_solicitation", resourceSolicitationPats),
    ("code_injection", codeInjectionPats),
    ("social_dominance", socialDominancePats),
    ("reputation_gaming", reputationGamingPats) ]

/-- One category's accumulated matches in the Moltbook `detect_signals`
(moltbook_to_dojo.py lines 137-143): every `finditer` match text that is
non-empty and longer than 3 characters, across the category's patterns. -/
def catMatches (pats : List RE) (textLower : String) : List String :=
  pats.foldl (fun ms p =>
    ms ++ (finditer_full p textLower).filter
      (fun m => !m.isEmpty && decide (3 < m.length))) []

/-- moltbook_to_dojo.py `detect_signals` (lines 132-147): for each category
accumulate every `finditer` match text longer than 3 characters across the
category's patterns, then deduplicate keeping first occurrences; a category
is recorded only when it has at least one match.  No per-category cap is
applied here. -/
def detect_signals (text : String) : SignalMatch :=
  let tl := pyLower text
  MANIPULATION_SIGNALS.foldl (fun acc cp =>
    if catMatches cp.2 tl ≠ [] then acc ++ [(cp.1, dedupFirst (catMatches cp.2 tl))]
    else acc) []

/-- The shapes a Python post field like `author` or `submolt` can take:
absent (defaulted to `{}`), a plain string, or a dict with optional
`name` / `display_name` entries. -/
inductive PyEntity where
  | missing
  | str (s : String)
  | obj (name : Option String) (displayName : Option String)
deriving DecidableEq

/-- moltbook_to_dojo.py `_author_name` (lines 326-330); an absent `author`
defaults to `{}` whose `.get("name", "unknown")` is `"unknown"`, and a falsy
(empty) string author also yields `"unknown"`. -/
def author_name : PyEntity → String
  | PyEntity.missing => "unknown"
  | PyEntity.obj n _ => n.getD "unknown"
  | PyEntity.str s => if s = "" then "unknown" else s

/-- moltbook_to_dojo.py `_submolt_name` (lines 333-337). -/
def submolt_name : PyEntity → String
  | PyEntity.missing => "unknown"
  | PyEntity.obj n d => n.getD (d.getD "unknown")
  | PyEntity.str s => if s = "" then "unknown" else s

/-- The fields of a parsed raw post that the converters read. -/
structure Post where
  id : Option String
  author : PyEntity
  submolt : PyEntity
deriving DecidableEq

/-- `sender_info` of the Guardian scenario (moltbook_to_dojo.py lines 420-426). -/
structure SenderInfo where
  displayName : String
  accountAge : String
  mutualConnections : Nat
  isVerified : Bool
  riskIndicators : List String
deriving DecidableEq

/-- `groundTruth` of the Guardian scenario (lines 427-433). -/
structure GroundTruth where
  isThreat : Bool
  correctDecision : String
  threatCategory : Option String
  severity : ℚ
  patterns : List String
deriving DecidableEq

/-- `context` of the Guardian scenario (lines 415-435). -/
structure GuardianContext where
  scenarioType : String
  profileType : String
  platform : String
  threatContent : String
  senderInfo : SenderInfo
  groundTruth : GroundTruth
  policyRules : List String
deriving DecidableEq

/-- `metadata` of the Guardian scenario (lines 438-442). -/
structure GuardianMetadata where
  postId : String
  submolt : String
  convertedAt : String
deriving DecidableEq

/-- A Guardian Dojo scenario record (lines 412-443). -/
structure GuardianScenario where
  source : String
  id : String
  context : GuardianContext
  conversationHistory : List String
  difficulty : String
  metadata : GuardianMetadata
deriving DecidableEq

/-- moltbook_to_dojo.py `to_guardian_dojo_scenario` (lines 342-443), with the
two non-deterministic inputs made explicit: `freshId` for `str(uuid.uuid4())`
and `now` for `datetime.utcnow().isoformat()`.  The unused local
`all_matches` of lines 364-366 is omitted. -/
def to_guardian_dojo_scenario (thread : List String) (signals : SignalMatch)
    (post : Post) (freshId now : String) : Option GuardianScenario :=
  let threat_score := compute_threat_score signals
  if threat_score < 1/10 ∧ signals = [] then none
  else
    let stmp := guardian_scenario_choice signals
    let is_threat := guardian_is_threat threat_score
    some
      { source := "moltbook"
        id := freshId
        context :=
          { scenarioType := stmp.1
            profileType := "child"
            platform := "Moltbook"
            threatContent := String.intercalate " " thread
            senderInfo :=
              { displayName := author_name post.author
                accountAge := "unknown"
                mutualConnections := 0
                isVerified := false
                riskIndicators := signals.map (fun e => e.1) }
            groundTruth :=
              { isThreat := is_threat
                correctDecision := guardian_decision threat_score
                threatCategory := if is_threat then some stmp.1 else none
                severity := round3 threat_score
                patterns := stmp.2.take 5 }
            policyRules := [] }
        conversationHistory := thread
        difficulty := guardian_difficulty threat_score
        metadata :=
          { postId := post.id.getD "unknown"
            submolt := submolt_name post.submolt
            convertedAt := now } }

/-- `metadata` of the Agent Dojo scenario (moltbook_to_dojo.py lines 316-322). -/
structure AgentMetadata where
  postId : String
  agentName : String
  submolt : String
  messageCount : Nat
  convertedAt : String
deriving DecidableEq

/-- An Agent Dojo scenario record (lines 308-323); note the dict has no
identifier field. -/
structure AgentScenario where
  source : String
  scenarioType : String
  openingPrompt : String
  transcript : List String
  label : String
  threatScore : ℚ
  detectedSignals : SignalMatch
  metadata : AgentMetadata
deriving DecidableEq

/-- The first-match if/elif chain choosing the Agent Dojo `scenario_type`
(lines 287-297). -/
def agent_scenario_type (signals : SignalMatch) : String :=
  if sigHas signals "code_injection" then "dappConnect"
  else if sigHas signals "resource_solicitation" then "tokenTrade"
  else if sigHas signals "authority_claim" && sigHas signals "information_extraction" then
    "contractApproval"
  else if sigHas signals "information_extraction" then "recoveryAssist"
  else if sigHas signals "trust_building" && sigHas signals "deception" then
    "socialEngineering"
  else "socialEngineering"

/-- The label banding of lines 300-306. -/
def agent_label (s : ℚ) : String :=
  if 3/10 ≤ s then "suspicious" else if 0 < s then "anonymous" else "anonymous"

/-- moltbook_to_dojo.py `to_agent_dojo_scenario` (lines 274-323), with `now`
standing for `datetime.utcnow().isoformat()`; the dict carries no fresh
identifier. -/
def to_agent_dojo_scenario (thread : List String) (signals : SignalMatch)
    (post : Post) (now : String) : Option AgentScenario :=
  if thread.length < 2 then none
  else
    let threat_score := compute_threat_score signals
    some
      { source := "moltbook"
        scenarioType := agent_scenario_type signals
        openingPrompt := thread.headD ""
        transcript := thread
        label := agent_label threat_score
        threatScore := round3 threat_score
        detectedSignals := signals.map (fun e => (e.1, e.2.take 3))
        metadata :=
          { postId := post.id.getD "unknown"
            agentName := author_name post.author
            submolt := submolt_name post.submolt
            messageCount := thread.length
            convertedAt := now } }

/-- The JSON keys of the Agent Dojo scenario dict (moltbook_to_dojo.py
lines 308-323). -/
def agent_scenario_keys : List String :=
  ["source", "scenarioType", "openingPrompt", "transcript", "label",
   "threatScore", "detectedSignals", "metadata"]

/-- The keys of the Agent Dojo scenario's `metadata` dict (lines 316-322). -/
def agent_metadata_keys : List String :=
  ["postId", "agentName", "submolt", "messageCount", "convertedAt"]

/-- The top-level JSON keys of the Guardian Dojo scenario dict
(lines 412-443). -/
def guardian_scenario_keys : List String :=
  ["source", "id", "context", "conversationHistory", "difficulty", "metadata"]

/-- A Guardian scenario with its two non-deterministic fields blanked. -/
def eraseGuardianNondet (g : GuardianScenario) : GuardianScenario :=
  { g with id := "", metadata := { g.metadata with convertedAt := "" } }

/-- An Agent scenario with its sole non-deterministic field blanked. -/
def eraseAgentNondet (a : AgentScenario) : AgentScenario :=
  { a with metadata := { a.metadata with convertedAt := "" } }

/-- Python `Path(f).stem` for ordinary dotted file names: the name with its
last extension removed. -/
def stem (fname : String) : String :=
  let parts := fname.splitOn "."
  match parts with
  | [] => fname
  | [_] => fname
  | _ => String.intercalate "." parts.dropLast

/-- `data.get("id", f.stem)` (moltbook_to_dojo.py line 469). -/
def pidOf (fname : String) (data : Post) : String := data.id.getD (stem fname)

/-- Python dict assignment `posts[pid] = data`: update in place if the key
exists (keeping its position), else append. -/
def insertUpdate (k : String) (v : Post) : List (String × Post) → List (String × Post)
  | [] => [(k, v)]
  | (k2, v2) :: rest =>
      if k2 = k then (k, v) :: rest else (k2, v2) :: insertUpdate k v rest

/-- One step of the `posts` dict construction (moltbook_to_dojo.py lines
469-471): skip ids already in the processed ledger, insert the rest. -/
def buildStep (processed : List String) (acc : List (String × Post))
    (fp : String × Post) : List (String × Post) :=
  if pidOf fp.1 fp.2 ∈ processed then acc else insertUpdate (pidOf fp.1 fp.2) fp.2 acc

/-- The `posts` dict construction of `convert_all` (lines 467-471): every
globbed post file is parsed, and posts whose id is not yet in the processed
ledger are inserted in file order. -/
def buildPosts (processed : List String) (raw : List (String × Post)) :
    List (String × Post) :=
  raw.foldl (buildStep processed) []

/-- `json.loads(f.read_text())` over every globbed post file in order; the
first malformed file raises (`convert_all` has no try/except around the
parse in lines 467-469). -/
def parseAll : List (String × Option Post) → Except String (List (String × Post))
  | [] => Except.ok []
  | (f, none) :: _ => Except.error f
  | (f, some p) :: rest => (parseAll rest).map (fun l => (f, p) :: l)

/-- The post-processing loop of `convert_all` (lines 486-510) over an
already-built posts dict: each post's synthesized scenarios (abstracted as
`synth`, covering `extract_threads` / `detect_signals` / the two converter
calls) are emitted tagged by post id, and the id is added to the ledger
whether or not any scenario was produced. -/
def convertLoop {α : Type} (synth : String → Post → List α)
    (processed : List String) (posts : List (String × Post)) :
    List (String × α) × List String :=
  posts.foldl (fun st pp =>
    (st.1 ++ (synth pp.1 pp.2).map (fun a => (pp.1, a)), st.2 ++ [pp.1]))
    (([] : List (String × α)), processed)

/-- moltbook_to_dojo.py `convert_all` (lines 459-511) on parsed inputs:
build the posts dict from files whose id is not yet processed, return early
when it is empty, otherwise synthesize per post and save the grown ledger. -/
def convert_all_parsed {α : Type} (synth : String → Post → List α)
    (processed : List String) (raw : List (String × Post)) :
    List (String × α) × List String :=
  if buildPosts processed raw = [] then ([], processed)
  else convertLoop synth processed (buildPosts processed raw)

/-- moltbook_to_dojo.py `convert_all` (lines 459-511) including the
unguarded parses: a malformed post file propagates as an exception, aborting
the batch with no outputs and no ledger update. -/
def convert_all {α : Type} (synth : String → Post → List α)
    (processed : List String) (raw : List (String × Option Post)) :
    Except String (List (String × α) × List String) :=
  (parseAll raw).map (fun parsed => convert_all_parsed synth processed parsed)

end Moltbook

namespace WorldData

/-- A globbed world-data file: its name and its parse result (`none` models
a `json.JSONDecodeError`). -/
structure WorldFile (ρ : Type) where
  name : String
  content : Option ρ

/-- The outputs of one batch run of world_data_to_dojo.py `main`: the four
scenario streams (each scenario tagged with the source file name it was
written for) and the persisted processed ledger. -/
structure RunResult (γ : Type) where
  guardian : List (String × γ)
  financial : List (String × γ)
  agent : List (String × γ)
  bestpractice : List (String × γ)
  ledger : List String

/-- The batch loop of world_data_to_dojo.py `main` (lines 704-791): files
whose name is already in the processed ledger are filtered out up front; a
file whose routing fails, whose converter is missing, that is malformed, or
whose converter raises (`except Exception`) is skipped and marked processed;
otherwise the converter's four scenario lists are written and the file is
marked processed.  `route` models `route_file`, `converters` models
`SOURCE_CONVERTERS.get`, and a converter returning `none` models a raised
exception; the in-place `record["source"]` patch for news files is folded
into the abstract converter. -/
def worldStep {ρ γ σ : Type} (route : String → Option σ)
    (converters : σ → Option (ρ → Option (List γ × List γ × List γ × List γ)))
    (st : RunResult γ) (wf : WorldFile ρ) : RunResult γ :=
  match route wf.name with
  | none => { st with ledger := st.ledger ++ [wf.name] }
  | some key =>
    match converters key with
    | none => { st with ledger := st.ledger ++ [wf.name] }
    | some conv =>
      match wf.content with
      | none => { st with ledger := st.ledger ++ [wf.name] }
      | some record =>
        match conv record with
        | none => { st with ledger := st.ledger ++ [wf.name] }
        | some gfab =>
          { guardian := st.guardian ++ gfab.1.map (fun x => (wf.name, x))
            financial := st.financial ++ gfab.2.1.map (fun x => (wf.name, x))
            agent := st.agent ++ gfab.2.2.1.map (fun x => (wf.name, x))
            bestpractice := st.bestpractice ++ gfab.2.2.2.map (fun x => (wf.name, x))
            ledger := st.ledger ++ [wf.name] }

def world_main {ρ γ σ : Type} (route : String → Option σ)
    (converters : σ → Option (ρ → Option (List γ × List γ × List γ × List γ)))
    (processed : List String) (files : List (WorldFile ρ)) : RunResult γ :=
  (files.filter (fun f => decide (f.name ∉ processed))).foldl
    (worldStep route converters)
    { guardian := [], financial := [], agent := [], bestpractice := [],
      ledger := processed }

end WorldData

namespace GuardianDojo

theorem round3_mono {a b : ℚ} (h : a ≤ b) : round3 a ≤ round3 b := by
  unfold round3
  have hr : round (1000 * a) ≤ round (1000 * b) := by
    rw [round_eq, round_eq]
    exact Int.floor_mono (by linarith)
  have : ((round (1000 * a) : ℤ) : ℚ) ≤ ((round (1000 * b) : ℤ) : ℚ) := by
    exact_mod_cast hr
  linarith

theorem round3_zero : round3 0 = 0 := by
  simp [round3]

theorem round3_one : round3 1 = 1 := by
  unfold round3
  rw [show (1000 * (1 : ℚ)) = ((1000 : ℤ) : ℚ) by norm_num, round_intCast]
  norm_num

theorem round3_nonneg {a : ℚ} (h : 0 ≤ a) : 0 ≤ round3 a := by
  have := round3_mono h
  rwa [round3_zero] at this

/-- For a nonnegative value, rounding then clamping above at 1 agrees with
clamping to `[0, 1]` then rounding. -/
theorem min_round3_clamp {x : ℚ} (hx : 0 ≤ x) :
    min (round3 x) 1 = round3 (clamp01 x) := by
  unfold clamp01
  rw [max_eq_left hx]
  rcases le_or_lt x 1 with h | h
  · have h1 : round3 x ≤ 1 := by
      have := round3_mono h
      rwa [round3_one] at this
    rw [min_eq_left h1, min_eq_left h]
  · have h1 : (1 : ℚ) ≤ round3 x := by
      have := round3_mono h.le
      rwa [round3_one] at this
    rw [min_eq_right h1, min_eq_right h.le, round3_one]

theorem diminishingSum_nonneg {w : ℚ} (hw : 0 ≤ w) : ∀ k, 0 ≤ diminishingSum w k
  | 0 => le_refl 0
  | k + 1 => by
      have ih := diminishingSum_nonneg hw k
      unfold diminishingSum
      have : (0 : ℚ) ≤ w / 2 ^ k := by positivity
      linarith

theorem diminishingSum_succ (w : ℚ) (k : Nat) :
    diminishingSum w (k + 1) = diminishingSum w k + w / 2 ^ k := rfl

theorem diminishingSum_mono {w : ℚ} (hw : 0 ≤ w) {j k : Nat} (h : j ≤ k) :
    diminishingSum w j ≤ diminishingSum w k := by
  induction k with
  | zero => simp_all
  | succ k ih =>
      rcases Nat.lt_or_ge j (k + 1) with hlt | hge
      · have hj : j ≤ k := Nat.lt_succ_iff.mp hlt
        have hp : (0 : ℚ) ≤ w / 2 ^ k := by positivity
        calc diminishingSum w j ≤ diminishingSum w k := ih hj
          _ ≤ diminishingSum w (k + 1) := by rw [diminishingSum_succ]; linarith
      · have : j = k + 1 := le_antisymm h hge
        subst this; exact le_refl _

theorem diminishingSum_le_cap {w : ℚ} (hw : 0 ≤ w) {k : Nat} (hk : k ≤ 3) :
    diminishingSum w k ≤ 7/4 * w := by
  interval_cases k <;> simp [diminishingSum] <;> linarith

theorem mem_dedupFirstAux {y : String} :
    ∀ {seen l : List String}, y ∈ dedupFirstAux seen l → y ∈ l
  | _, [], h => by simp [dedupFirstAux] at h
  | seen, x :: xs, h => by
      rw [dedupFirstAux] at h
      by_cases hx : x ∈ seen
      · rw [if_pos hx] at h
        exact List.mem_cons_of_mem _ (mem_dedupFirstAux h)
      · rw [if_neg hx] at h
        rcases List.mem_cons.mp h with h | h
        · exact h ▸ List.mem_cons_self x xs
        · exact List.mem_cons_of_mem _ (mem_dedupFirstAux h)

theorem dedupFirstAux_not_mem_seen {y : String} :
    ∀ {seen l : List String}, y ∈ dedupFirstAux seen l → y ∉ seen
  | _, [], h => by simp [dedupFirstAux] at h
  | seen, x :: xs, h => by
      rw [dedupFirstAux] at h
      by_cases hx : x ∈ seen
      · rw [if_pos hx] at h
        exact dedupFirstAux_not_mem_seen h
      · rw [if_neg hx] at h
        rcases List.mem_cons.mp h with h | h
        · exact h ▸ hx
        · intro hy
          exact dedupFirstAux_not_mem_seen h (List.mem_append_left _ hy)

theorem dedupFirstAux_nodup : ∀ (seen l : List String), (dedupFirstAux seen l).Nodup
  | _, [] => List.nodup_nil
  | seen, x :: xs => by
      rw [dedupFirstAux]
      by_cases hx : x ∈ seen
      · rw [if_pos hx]; exact dedupFirstAux_nodup seen xs
      · rw [if_neg hx]
        refine List.nodup_cons.mpr ⟨fun hmem => ?_, dedupFirstAux_nodup _ xs⟩
        have := dedupFirstAux_not_mem_seen hmem
        simp at this

theorem mem_dedupFirst {y : String} {l : List String} (h : y ∈ dedupFirst l) : y ∈ l :=
  mem_dedupFirstAux h

theorem dedupFirst_nodup (l : List String) : (dedupFirst l).Nodup :=
  dedupFirstAux_nodup [] l

theorem dedupFirst_ne_nil {l : List String} (h : l ≠ []) : dedupFirst l ≠ [] := by
  cases l with
  | nil => exact absurd rfl h
  | cons x xs =>
      unfold dedupFirst dedupFirstAux
      rw [if_neg (List.not_mem_nil x)]
      exact List.cons_ne_nil _ _

end GuardianDojo

namespace Moltbook

open GuardianDojo

theorem weights_nonneg (c : String) : 0 ≤ weights c := by
  unfold weights; split_ifs <;> norm_num

theorem weights_le (c : String) : weights c ≤ 3/10 := by
  unfold weights; split_ifs <;> norm_num

theorem diversity_nonneg (n : Nat) : 0 ≤ diversity n := by
  unfold diversity; split_ifs <;> norm_num

theorem diversity_mono {n : Nat} (hn : 1 ≤ n) : diversity n ≤ diversity (n + 1) := by
  rcases Nat.lt_or_ge n 3 with h | h
  · interval_cases n <;> norm_num [diversity]
  · have h1 : 3 ≤ n + 1 := by omega
    unfold diversity
    rw [if_pos h, if_pos h1]

theorem rawScore_nonneg (signals : SignalMatch) : 0 ≤ rawScore signals := by
  apply List.sum_nonneg
  intro x hx
  rcases List.mem_map.mp hx with ⟨e, _, rfl⟩
  exact diminishingSum_nonneg (weights_nonneg e.1) _

theorem compute_threat_score_nonneg (signals : SignalMatch) :
    0 ≤ compute_threat_score signals := by
  unfold compute_threat_score
  split_ifs with h
  · exact le_refl 0
  · exact le_min (round3_nonneg (mul_nonneg (rawScore_nonneg _) (diversity_nonneg _)))
      (by norm_num)

theorem guardian_is_threat_iff (s : ℚ) : guardian_is_threat s = true ↔ 1/4 ≤ s :=
  decide_eq_true_iff

/-- The threshold bands realized by `guardian_decision`. -/
theorem guardian_bands (s : ℚ) :
    (guardian_is_threat s = true ↔ 1/4 ≤ s)
  ∧ (guardian_decision s = "BLOCK" ↔ 1/2 ≤ s)
  ∧ (guardian_decision s = "ALERT" ↔ 1/4 ≤ s ∧ s < 1/2)
  ∧ (guardian_decision s = "ALLOW" ↔ s < 1/4) := by
  refine ⟨guardian_is_threat_iff s, ?_⟩
  unfold guardian_decision guardian_is_threat
  split_ifs with h1 h2
  · rw [decide_eq_true_eq] at h1
    refine ⟨⟨fun _ => h2, fun _ => rfl⟩, ?_, ?_⟩
    · exact ⟨fun hs => absurd hs (by decide), fun hand => absurd h2 (not_le.mpr hand.2)⟩
    · exact ⟨fun hs => absurd hs (by decide), fun hlt => absurd h1 (not_le.mpr (by linarith))⟩
  · rw [decide_eq_true_eq] at h1
    refine ⟨?_, ?_, ?_⟩
    · exact ⟨fun hs => absurd hs (by decide), fun hle => absurd hle h2⟩
    · exact ⟨fun _ => ⟨h1, lt_of_not_le h2⟩, fun _ => rfl⟩
    · exact ⟨fun hs => absurd hs (by decide), fun hlt => absurd h1 (not_le.mpr hlt)⟩
  · have h1' : ¬ (1/4 : ℚ) ≤ s := fun hc => h1 (decide_eq_true hc)
    refine ⟨?_, ?_, ?_⟩
    · exact ⟨fun hs => absurd hs (by decide),
        fun hle => absurd (by linarith : (1/4 : ℚ) ≤ s) h1'⟩
    · exact ⟨fun hs => absurd hs (by decide), fun hand => absurd hand.1 h1'⟩
    · exact ⟨fun _ => lt_of_not_le h1', fun _ => rfl⟩

end Moltbook

namespace PublicScam

theorem scam_is_threat_iff (s : ℚ) : scam_is_threat s = true ↔ 1/4 ≤ s :=
  decide_eq_true_iff

/-- The threshold bands realized by `scam_decision`. -/
theorem scam_bands (s : ℚ) :
    (scam_is_threat s = true ↔ 1/4 ≤ s)
  ∧ (scam_decision s = "BLOCK" ↔ 1/2 ≤ s)
  ∧ (scam_decision s = "ALERT" ↔ 1/4 ≤ s ∧ s < 1/2)
  ∧ (scam_decision s = "ALLOW" ↔ s < 1/4) := by
  refine ⟨scam_is_threat_iff s, ?_⟩
  unfold scam_decision
  split_ifs with h1 h2
  · refine ⟨⟨fun _ => h1, fun _ => rfl⟩, ?_, ?_⟩
    · exact ⟨fun hs => absurd hs (by decide), fun hand => absurd h1 (not_le.mpr hand.2)⟩
    · exact ⟨fun hs => absurd hs (by decide), fun hlt => absurd h1 (not_le.mpr (by linarith))⟩
  · refine ⟨?_, ?_, ?_⟩
    · exact ⟨fun hs => absurd hs (by decide), fun hle => absurd hle h1⟩
    · exact ⟨fun _ => ⟨h2, lt_of_not_le h1⟩, fun _ => rfl⟩
    · exact ⟨fun hs => absurd hs (by decide), fun hlt => absurd h2 (not_le.mpr hlt)⟩
  · refine ⟨?_, ?_, ?_⟩
    · exact ⟨fun hs => absurd hs (by decide),
        fun hle => absurd (by linarith : (1/4 : ℚ) ≤ s) h2⟩
    · exact ⟨fun hs => absurd hs (by decide), fun hand => absurd hand.1 h2⟩
    · exact ⟨fun _ => lt_of_not_le h2, fun _ => rfl⟩

end PublicScam

namespace GuardianDojo

/-- Evaluation rule for `round3` when the scaled argument is an integer. -/
theorem round3_intCast {q : ℚ} {n : ℤ} (h : 1000 * q = (n : ℚ)) :
    round3 q = (n : ℚ) / 1000 := by
  unfold round3
  rw [h, round_intCast]

/-- The claim-side multiplier agrees with the code's diversity multiplier on
nonempty signal sets. -/
theorem claim_mult_eq_diversity {n : Nat} (hn : 1 ≤ n) :
    (if 3 ≤ n then (13 : ℚ)/10 else if n = 2 then 11/10 else if n = 1 then 3/5 else 0)
      = Moltbook.diversity n := by
  unfold Moltbook.diversity
  rcases Nat.lt_or_ge n 3 with h | h
  · interval_cases n <;> norm_num
  · rw [if_pos h, if_pos h]

end GuardianDojo

open GuardianDojo in
/-- Claim C1 (amended, Moltbook part): for every SignalMatch mapping, the
Moltbook converter's ThreatScore equals the spec formula: the sum over
matched categories of `w * (1/2)^i` for `i = 0..k-1` with `k` the match count
capped at 3, times the diversity multiplier (×1.3 for ≥3 categories, ×1.1 for
exactly 2, ×0.6 for exactly 1, 0.0 for none), clamped to [0, 1] and rounded
to 3 decimals.  The world-data converter deviates from this formula (see the
counterexample): it caps nothing and never rounds. -/
theorem C1_threat_score_formula (signals : SignalMatch) :
    Moltbook.compute_threat_score signals = Spec.claimFormula Moltbook.weights signals := by
  rcases eq_or_ne signals [] with h | h
  · subst h
    simp [Moltbook.compute_threat_score, Spec.claimFormula, clamp01, round3_zero]
  · have hn : 1 ≤ signals.length := List.length_pos.mpr h
    simp only [Spec.claimFormula, Moltbook.compute_threat_score, Moltbook.rawScore]
    rw [if_neg h, claim_mult_eq_diversity hn]
    exact min_round3_clamp
      (mul_nonneg (Moltbook.rawScore_nonneg signals) (Moltbook.diversity_nonneg _))

open GuardianDojo in
/-- Claim C1 counterexample: on a single category with four matched phrases,
the world-data converter's `compute_threat_score` (no per-category cap, no
rounding) yields 0.225, while the claimed formula yields 0.21. -/
theorem C1_counterexample :
    WorldData.compute_threat_score [("deception", ["a", "b", "c", "d"])] = 9/40
  ∧ Spec.claimFormula WorldData.weights [("deception", ["a", "b", "c", "d"])] = 21/100
  ∧ WorldData.compute_threat_score [("deception", ["a", "b", "c", "d"])]
      ≠ Spec.claimFormula WorldData.weights [("deception", ["a", "b", "c", "d"])] := by
  have e4 : ∀ w : ℚ, diminishingSum w 4 = 0 + w/2^0 + w/2^1 + w/2^2 + w/2^3 :=
    fun w => rfl
  have e3 : ∀ w : ℚ, diminishingSum w 3 = 0 + w/2^0 + w/2^1 + w/2^2 := fun w => rfl
  have h1 : WorldData.compute_threat_score [("deception", ["a", "b", "c", "d"])] = 9/40 := by
    have hrw : WorldData.compute_threat_score [("deception", ["a", "b", "c", "d"])]
        = min ((diminishingSum ((1 : ℚ)/5) 4 + 0) * (3/5)) 1 := rfl
    rw [hrw, e4, min_def]
    norm_num
  have h2 : Spec.claimFormula WorldData.weights [("deception", ["a", "b", "c", "d"])]
      = 21/100 := by
    have hrw : Spec.claimFormula WorldData.weights [("deception", ["a", "b", "c", "d"])]
        = round3 (clamp01 ((diminishingSum ((1 : ℚ)/5) 3 + 0) * (3/5))) := rfl
    rw [hrw, e3]
    have hc : clamp01 ((0 + (1 : ℚ)/5/2^0 + (1/5)/2^1 + (1/5)/2^2 + 0) * (3/5)) = 21/100 := by
      unfold clamp01
      rw [min_def, max_def]
      norm_num
    rw [hc, round3_intCast (n := 210) (by norm_num)]
    norm_num
  exact ⟨h1, h2, by rw [h1, h2]; norm_num⟩

/-- Claim C2: in the absence of contextual overrides, the synthesized verdict
of both the Moltbook Guardian converter and the public-scam converter has
`isThreat` iff the computed score is ≥ 0.25, decision BLOCK iff ≥ 0.5, ALERT
iff in [0.25, 0.5), and ALLOW iff < 0.25. -/
theorem C2_threshold_bands (signals : GuardianDojo.SignalMatch) :
    ((Moltbook.guardian_is_threat (Moltbook.compute_threat_score signals) = true
        ↔ 1/4 ≤ Moltbook.compute_threat_score signals)
      ∧ (Moltbook.guardian_decision (Moltbook.compute_threat_score signals) = "BLOCK"
        ↔ 1/2 ≤ Moltbook.compute_threat_score signals)
      ∧ (Moltbook.guardian_decision (Moltbook.compute_threat_score signals) = "ALERT"
        ↔ 1/4 ≤ Moltbook.compute_threat_score signals
          ∧ Moltbook.compute_threat_score signals < 1/2)
      ∧ (Moltbook.guardian_decision (Moltbook.compute_threat_score signals) = "ALLOW"
        ↔ Moltbook.compute_threat_score signals < 1/4))
  ∧ ((PublicScam.scam_is_threat (WorldData.compute_threat_score signals) = true
        ↔ 1/4 ≤ WorldData.compute_threat_score signals)
      ∧ (PublicScam.scam_decision (WorldData.compute_threat_score signals) = "BLOCK"
        ↔ 1/2 ≤ WorldData.compute_threat_score signals)
      ∧ (PublicScam.scam_decision (WorldData.compute_threat_score signals) = "ALERT"
        ↔ 1/4 ≤ WorldData.compute_threat_score signals
          ∧ WorldData.compute_threat_score signals < 1/2)
      ∧ (PublicScam.scam_decision (WorldData.compute_threat_score signals) = "ALLOW"
        ↔ WorldData.compute_threat_score signals < 1/4)) :=
  ⟨Moltbook.guardian_bands _, PublicScam.scam_bands _⟩

/-- Claim C3: the Guardian scenario-type tests run in the fixed source order
reputation_gaming, social_dominance, resource_solicitation, code_injection,
trust_building-with-deception, urgency_pressure-with-authority_claim,
information_extraction, and each later matching test overwrites the
`(scenarioType, matched patterns)` of earlier matching tests, so the result
is the assignment of the last matching test (default `socialEngineering`
with no patterns when none match). -/
theorem C3_priority_ordered_override (signals : GuardianDojo.SignalMatch) :
    Moltbook.guardian_scenario_choice signals
      = Moltbook.lastMatching (Moltbook.guardianTests signals)
          ("socialEngineering", []) := by
  simp only [Moltbook.guardian_scenario_choice, Moltbook.guardianTests,
    Moltbook.lastMatching]
  generalize GuardianDojo.sigHas signals "reputation_gaming" = b1
  generalize GuardianDojo.sigHas signals "social_dominance" = b2
  generalize GuardianDojo.sigHas signals "resource_solicitation" = b3
  generalize GuardianDojo.sigHas signals "code_injection" = b4
  generalize (GuardianDojo.sigHas signals "trust_building"
    && GuardianDojo.sigHas signals "deception") = b5
  generalize (GuardianDojo.sigHas signals "urgency_pressure"
    && GuardianDojo.sigHas signals "authority_claim") = b6
  generalize GuardianDojo.sigHas signals "information_extraction" = b7
  cases b1 <;> cases b2 <;> cases b3 <;> cases b4 <;> cases b5 <;> cases b6 <;>
    cases b7 <;> rfl

/-- Claim C5: in feedback classification, `userOverrodeWarning` forces a
non-threat ALLOW verdict with difficulty hard regardless of the suspicion
level, and otherwise a suspicion level above 0.5 with no triggered alerts
forces a threat ALERT verdict; both pure override classifications are marked
hard. -/
theorem C5_feedback_overrides (r : Feedback.FeedbackRecord) :
    (r.userOverrodeWarning = true →
        (Feedback.classify_feedback r).is_threat = false
      ∧ (Feedback.classify_feedback r).correct_decision = "ALLOW"
      ∧ (Feedback.classify_feedback r).difficulty = "hard"
      ∧ (Feedback.classify_feedback r).scenario_type = "falsePositiveCandidate")
  ∧ (r.userOverrodeWarning = false → 1/2 < r.suspicionLevel →
      r.alertsTriggered = [] →
        (Feedback.classify_feedback r).is_threat = true
      ∧ (Feedback.classify_feedback r).correct_decision = "ALERT"
      ∧ (Feedback.classify_feedback r).difficulty = "hard"
      ∧ (Feedback.classify_feedback r).scenario_type = "falseNegativeCandidate") := by
  constructor
  · intro h
    unfold Feedback.classify_feedback
    rw [if_pos h]
    exact ⟨rfl, rfl, rfl, rfl⟩
  · intro h hs ha
    unfold Feedback.classify_feedback
    rw [if_neg (by rw [h]; exact Bool.false_ne_true), if_pos ⟨hs, ha⟩]
    exact ⟨rfl, rfl, rfl, rfl⟩

/-- Claim C5 witness: a record overriding a warning despite suspicion 0.9 is
classified ALLOW, and a non-overridden record with suspicion 0.6 and no
alerts is classified ALERT. -/
theorem C5_witness :
    (Feedback.classify_feedback
        ⟨true, 9/10, [], [], false, 0, "eth", "0x0"⟩).correct_decision = "ALLOW"
  ∧ (Feedback.classify_feedback
      ⟨false, 3/5, [], [], false, 0, "eth", "0x0"⟩).correct_decision = "ALERT" :=
  ⟨((C5_feedback_overrides ⟨true, 9/10, [], [], false, 0, "eth", "0x0"⟩).1 rfl).2.1,
   ((C5_feedback_overrides ⟨false, 3/5, [], [], false, 0, "eth", "0x0"⟩).2 rfl
      (by norm_num) rfl).2.1⟩

open GuardianDojo in
/-- Claim C9: for the Moltbook scorer, appending one phrase to an existing
category's match list, or adding a fresh single-phrase category, never
decreases the ThreatScore. -/
theorem C9_score_monotonicity (pre post : SignalMatch) (c : String)
    (ms : List String) (p : String) (t : SignalMatch) (d q : String) :
    (Moltbook.compute_threat_score (pre ++ (c, ms) :: post)
      ≤ Moltbook.compute_threat_score (pre ++ (c, ms ++ [p]) :: post))
  ∧ (d ∉ t.map (fun e => e.1) →
      Moltbook.compute_threat_score t
        ≤ Moltbook.compute_threat_score (t ++ [(d, [q])])) := by
  constructor
  · have hne1 : pre ++ (c, ms) :: post ≠ [] := by simp
    have hne2 : pre ++ (c, ms ++ [p]) :: post ≠ [] := by simp
    unfold Moltbook.compute_threat_score
    rw [if_neg hne1, if_neg hne2]
    have hlen : (pre ++ (c, ms) :: post).length = (pre ++ (c, ms ++ [p]) :: post).length := by
      simp
    have hraw : Moltbook.rawScore (pre ++ (c, ms) :: post)
        ≤ Moltbook.rawScore (pre ++ (c, ms ++ [p]) :: post) := by
      unfold Moltbook.rawScore
      simp only [List.map_append, List.map_cons, List.sum_append, List.sum_cons]
      have hmin : min ms.length 3 ≤ min (ms ++ [p]).length 3 := by
        simp only [List.length_append, List.length_cons, List.length_nil]
        omega
      have := diminishingSum_mono (Moltbook.weights_nonneg c) hmin
      linarith
    rw [← hlen]
    refine min_le_min (round3_mono ?_) (le_refl 1)
    exact mul_le_mul_of_nonneg_right hraw (Moltbook.diversity_nonneg _)
  · intro _
    rcases eq_or_ne t [] with ht | ht
    · subst ht
      exact le_trans (le_of_eq (by rfl)) (Moltbook.compute_threat_score_nonneg _)
    · have hne2 : t ++ [(d, [q])] ≠ [] := by
        simp
      have hn : 1 ≤ t.length := List.length_pos.mpr ht
      unfold Moltbook.compute_threat_score
      rw [if_neg ht, if_neg hne2]
      have hraw : Moltbook.rawScore t ≤ Moltbook.rawScore (t ++ [(d, [q])]) := by
        unfold Moltbook.rawScore
        simp only [List.map_append, List.map_cons, List.map_nil, List.sum_append,
          List.sum_cons, List.sum_nil]
        have := diminishingSum_nonneg (Moltbook.weights_nonneg d)
          (min ([q] : List String).length 3)
        linarith
      have hlen : (t ++ [(d, [q])]).length = t.length + 1 := by simp
      rw [hlen]
      refine min_le_min (round3_mono ?_) (le_refl 1)
      exact mul_le_mul hraw (Moltbook.diversity_mono hn) (Moltbook.diversity_nonneg _)
        (le_trans (Moltbook.rawScore_nonneg t) hraw)

open GuardianDojo in
/-- Claim C9 witness: concrete instances of both monotonicity directions; the
added category `urgency_pressure` is fresh for the single-category mapping. -/
theorem C9_witness :
    (Moltbook.compute_threat_score [("deception", ["a"])]
      ≤ Moltbook.compute_threat_score [("deception", ["a", "b"])])
  ∧ (Moltbook.compute_threat_score [("deception", ["a"])]
      ≤ Moltbook.compute_threat_score
          [("deception", ["a"]), ("urgency_pressure", ["x"])]) :=
  ⟨(C9_score_monotonicity [] [] "deception" ["a"] "b"
      [("deception", ["a"])] "urgency_pressure" "x").1,
   (C9_score_monotonicity [] [] "deception" ["a"] "b"
      [("deception", ["a"])] "urgency_pressure" "x").2 (by decide)⟩

open GuardianDojo in
/-- Claim C10: a single-category SignalMatch scores at most 0.315 under the
Moltbook scorer (max weight 0.30 × capped sum 1.75 × single-category
multiplier 0.6), which is below the 0.5 band, so the Guardian verdict is
never BLOCK. -/
theorem C10_single_category_bound (c : String) (ms : List String) :
    Moltbook.compute_threat_score [(c, ms)] ≤ 63/200
  ∧ Moltbook.guardian_decision (Moltbook.compute_threat_score [(c, ms)]) ≠ "BLOCK" := by
  have hscore : Moltbook.compute_threat_score [(c, ms)] ≤ 63/200 := by
    unfold Moltbook.compute_threat_score
    rw [if_neg (by simp)]
    have hraw : Moltbook.rawScore [(c, ms)] ≤ 21/40 := by
      unfold Moltbook.rawScore
      simp only [List.map_cons, List.map_nil, List.sum_cons, List.sum_nil]
      have h1 : diminishingSum (Moltbook.weights c) (min ms.length 3)
          ≤ 7/4 * Moltbook.weights c :=
        diminishingSum_le_cap (Moltbook.weights_nonneg c) (min_le_right _ _)
      have h2 := Moltbook.weights_le c
      linarith
    have hlen : ([(c, ms)] : SignalMatch).length = 1 := rfl
    rw [hlen]
    have hdiv : Moltbook.diversity 1 = 3/5 := rfl
    rw [hdiv]
    calc min (round3 (Moltbook.rawScore [(c, ms)] * (3/5))) 1
        ≤ round3 (Moltbook.rawScore [(c, ms)] * (3/5)) := min_le_left _ _
      _ ≤ round3 (63/200) := round3_mono (by linarith)
      _ = 63/200 := by
          rw [round3_intCast (n := 315) (by norm_num)]
          norm_num
  refine ⟨hscore, fun hb => ?_⟩
  have := (Moltbook.guardian_bands (Moltbook.compute_threat_score [(c, ms)])).2.1.mp hb
  linarith

namespace Moltbook

theorem convertLoop_aux {α : Type} (synth : String → Post → List α) :
    ∀ (posts : List (String × Post)) (st : List (String × α) × List String),
      (posts.foldl (fun st pp =>
        (st.1 ++ (synth pp.1 pp.2).map (fun a => (pp.1, a)), st.2 ++ [pp.1])) st).2
        = st.2 ++ posts.map (fun p => p.1)
  | [], st => by simp
  | pp :: rest, st => by
      rw [List.foldl_cons, convertLoop_aux synth rest _, List.map_cons]
      simp

theorem convertLoop_snd {α : Type} (synth : String → Post → List α)
    (processed : List String) (posts : List (String × Post)) :
    (convertLoop synth processed posts).2 = processed ++ posts.map (fun p => p.1) := by
  unfold convertLoop
  exact convertLoop_aux synth posts _

theorem insertUpdate_self_mem_keys (k : String) (v : Post) :
    ∀ (l : List (String × Post)), k ∈ (insertUpdate k v l).map (fun p => p.1)
  | [] => by simp [insertUpdate]
  | (k2, v2) :: rest => by
      rw [insertUpdate]
      by_cases h : k2 = k
      · rw [if_pos h]; simp
      · rw [if_neg h]
        simp only [List.map_cons, List.mem_cons]
        exact Or.inr (insertUpdate_self_mem_keys k v rest)

theorem insertUpdate_keys_mono {x : String} (k : String) (v : Post) :
    ∀ {l : List (String × Post)},
      x ∈ l.map (fun p => p.1) → x ∈ (insertUpdate k v l).map (fun p => p.1)
  | [], h => by simp at h
  | (k2, v2) :: rest, h => by
      rw [insertUpdate]
      rcases List.mem_cons.mp h with h | h
      · by_cases hk : k2 = k
        · rw [if_pos hk]
          simp only [List.map_cons, List.mem_cons]
          exact Or.inl (h.trans hk)
        · rw [if_neg hk]
          simp only [List.map_cons, List.mem_cons]
          exact Or.inl h
      · by_cases hk : k2 = k
        · rw [if_pos hk]
          simp only [List.map_cons, List.mem_cons]
          exact Or.inr h
        · rw [if_neg hk]
          simp only [List.map_cons, List.mem_cons]
          exact Or.inr (insertUpdate_keys_mono k v h)

theorem buildPosts_eq_foldl (processed : List String) (raw : List (String × Post)) :
    buildPosts processed raw = raw.foldl (buildStep processed) [] := rfl

theorem buildFold_keys_mono (processed : List String) {x : String} :
    ∀ (raw : List (String × Post)) {acc : List (String × Post)},
      x ∈ acc.map (fun p => p.1)
        → x ∈ (raw.foldl (buildStep processed) acc).map (fun p => p.1)
  | [], _, h => h
  | fp :: rest, acc, h => by
      rw [List.foldl_cons]
      refine buildFold_keys_mono processed rest ?_
      unfold buildStep
      split_ifs with hp
      · exact h
      · exact insertUpdate_keys_mono _ _ h

theorem buildFold_mem (processed : List String) :
    ∀ (raw : List (String × Post)) (acc : List (String × Post)) (fp : String × Post),
      fp ∈ raw →
        pidOf fp.1 fp.2 ∈ processed
        ∨ pidOf fp.1 fp.2 ∈ (raw.foldl (buildStep processed) acc).map (fun p => p.1)
  | [], _, _, h => absurd h (List.not_mem_nil _)
  | gp :: rest, acc, fp, h => by
      rw [List.foldl_cons]
      rcases List.mem_cons.mp h with h | h
      · subst h
        by_cases hp : pidOf fp.1 fp.2 ∈ processed
        · exact Or.inl hp
        · refine Or.inr (buildFold_keys_mono processed rest ?_)
          unfold buildStep
          rw [if_neg hp]
          exact insertUpdate_self_mem_keys _ _ acc
      · exact buildFold_mem processed rest _ fp h

theorem buildPosts_mem (processed : List String) (raw : List (String × Post))
    (fp : String × Post) (h : fp ∈ raw) :
    pidOf fp.1 fp.2 ∈ processed
    ∨ pidOf fp.1 fp.2 ∈ (buildPosts processed raw).map (fun p => p.1) := by
  rw [buildPosts_eq_foldl]
  exact buildFold_mem processed raw [] fp h

theorem buildFold_all_processed (processed : List String) :
    ∀ (raw : List (String × Post)) (acc : List (String × Post)),
      (∀ fp ∈ raw, pidOf fp.1 fp.2 ∈ processed)
        → raw.foldl (buildStep processed) acc = acc
  | [], _, _ => rfl
  | fp :: rest, acc, h => by
      rw [List.foldl_cons]
      have hstep : buildStep processed acc fp = acc := by
        unfold buildStep
        rw [if_pos (h fp (List.mem_cons_self _ _))]
      rw [hstep]
      exact buildFold_all_processed processed rest acc
        (fun gp hgp => h gp (List.mem_cons_of_mem _ hgp))

theorem buildPosts_nil (processed : List String) (raw : List (String × Post))
    (h : ∀ fp ∈ raw, pidOf fp.1 fp.2 ∈ processed) : buildPosts processed raw = [] := by
  rw [buildPosts_eq_foldl]
  exact buildFold_all_processed processed raw [] h

theorem convert_all_parsed_of_all_processed {α : Type} (synth : String → Post → List α)
    (processed : List String) (raw : List (String × Post))
    (h : ∀ fp ∈ raw, pidOf fp.1 fp.2 ∈ processed) :
    convert_all_parsed synth processed raw = ([], processed) := by
  unfold convert_all_parsed
  rw [buildPosts_nil processed raw h, if_pos rfl]

theorem convert_all_parsed_snd {α : Type} (synth : String → Post → List α)
    (processed : List String) (raw : List (String × Post)) :
    (convert_all_parsed synth processed raw).2
      = processed ++ (buildPosts processed raw).map (fun p => p.1) := by
  unfold convert_all_parsed
  split_ifs with h
  · rw [h]; simp
  · exact convertLoop_snd synth processed _

theorem parseAll_map_some :
    ∀ raw : List (String × Post),
      parseAll (raw.map (fun fp => (fp.1, some fp.2))) = Except.ok raw
  | [] => rfl
  | fp :: rest => by
      rw [List.map_cons]
      show (parseAll (rest.map (fun fp => (fp.1, some fp.2)))).map
        (fun l => (fp.1, fp.2) :: l) = Except.ok (fp :: rest)
      rw [parseAll_map_some rest]
      rfl

end Moltbook

namespace WorldData

theorem worldStep_ledger {ρ γ σ : Type} (route : String → Option σ)
    (converters : σ → Option (ρ → Option (List γ × List γ × List γ × List γ)))
    (st : RunResult γ) (wf : WorldFile ρ) :
    (worldStep route converters st wf).ledger = st.ledger ++ [wf.name] := by
  rcases hr : route wf.name with - | key
  · simp [worldStep, hr]
  · rcases hc : converters key with - | conv
    · simp [worldStep, hr, hc]
    · rcases hw : wf.content with - | record
      · simp [worldStep, hr, hc, hw]
      · rcases hv : conv record with - | gfab
        · simp [worldStep, hr, hc, hw, hv]
        · simp [worldStep, hr, hc, hw, hv]

theorem worldFold_ledger {ρ γ σ : Type} (route : String → Option σ)
    (converters : σ → Option (ρ → Option (List γ × List γ × List γ × List γ))) :
    ∀ (l : List (WorldFile ρ)) (st : RunResult γ),
      (l.foldl (worldStep route converters) st).ledger
        = st.ledger ++ l.map (fun f => f.name)
  | [], st => by simp
  | wf :: rest, st => by
      rw [List.foldl_cons, worldFold_ledger route converters rest _,
        worldStep_ledger, List.map_cons]
      simp

/-- A malformed file's step only touches the ledger. -/
theorem worldStep_outputs_malformed {ρ γ σ : Type} (route : String → Option σ)
    (converters : σ → Option (ρ → Option (List γ × List γ × List γ × List γ)))
    (st : RunResult γ) (wf : WorldFile ρ) (h : wf.content = none) :
    (worldStep route converters st wf).guardian = st.guardian
  ∧ (worldStep route converters st wf).financial = st.financial
  ∧ (worldStep route converters st wf).agent = st.agent
  ∧ (worldStep route converters st wf).bestpractice = st.bestpractice := by
  rcases hr : route wf.name with - | key
  · simp [worldStep, hr]
  · rcases hc : converters key with - | conv
    · simp [worldStep, hr, hc]
    · simp [worldStep, hr, hc, h]

/-- The step's output streams depend only on the state's output streams. -/
theorem worldStep_outputs_congr {ρ γ σ : Type} (route : String → Option σ)
    (converters : σ → Option (ρ → Option (List γ × List γ × List γ × List γ)))
    (st st' : RunResult γ) (wf : WorldFile ρ)
    (hg : st.guardian = st'.guardian) (hf : st.financial = st'.financial)
    (ha : st.agent = st'.agent) (hb : st.bestpractice = st'.bestpractice) :
    (worldStep route converters st wf).guardian
        = (worldStep route converters st' wf).guardian
  ∧ (worldStep route converters st wf).financial
        = (worldStep route converters st' wf).financial
  ∧ (worldStep route converters st wf).agent
        = (worldStep route converters st' wf).agent
  ∧ (worldStep route converters st wf).bestpractice
        = (worldStep route converters st' wf).bestpractice := by
  rcases hr : route wf.name with - | key
  · simp [worldStep, hr, hg, hf, ha, hb]
  · rcases hc : converters key with - | conv
    · simp [worldStep, hr, hc, hg, hf, ha, hb]
    · rcases hw : wf.content with - | record
      · simp [worldStep, hr, hc, hw, hg, hf, ha, hb]
      · rcases hv : conv record with - | gfab
        · simp [worldStep, hr, hc, hw, hv, hg, hf, ha, hb]
        · simp [worldStep, hr, hc, hw, hv, hg, hf, ha, hb]

/-- Dropping malformed files from the fold leaves all four output streams
unchanged. -/
theorem worldFold_outputs_filter {ρ γ σ : Type} (route : String → Option σ)
    (converters : σ → Option (ρ → Option (List γ × List γ × List γ × List γ))) :
    ∀ (l : List (WorldFile ρ)) (st st' : RunResult γ),
      st.guardian = st'.guardian → st.financial = st'.financial →
      st.agent = st'.agent → st.bestpractice = st'.bestpractice →
      (l.foldl (worldStep route converters) st).guardian
          = ((l.filter (fun f => f.content.isSome)).foldl
              (worldStep route converters) st').guardian
      ∧ (l.foldl (worldStep route converters) st).financial
          = ((l.filter (fun f => f.content.isSome)).foldl
              (worldStep route converters) st').financial
      ∧ (l.foldl (worldStep route converters) st).agent
          = ((l.filter (fun f => f.content.isSome)).foldl
              (worldStep route converters) st').agent
      ∧ (l.foldl (worldStep route converters) st).bestpractice
          = ((l.filter (fun f => f.content.isSome)).foldl
              (worldStep route converters) st').bestpractice
  | [], st, st', hg, hf, ha, hb => ⟨hg, hf, ha, hb⟩
  | wf :: rest, st, st', hg, hf, ha, hb => by
      rw [List.filter_cons, List.foldl_cons]
      cases hc : wf.content with
      | none =>
          have hm := worldStep_outputs_malformed route converters st wf hc
          simp only [Option.isSome_none, Bool.false_eq_true, if_false]
          exact worldFold_outputs_filter route converters rest _ st'
            (hm.1.trans hg) (hm.2.1.trans hf) (hm.2.2.1.trans ha) (hm.2.2.2.trans hb)
      | some record =>
          simp only [Option.isSome_some, if_true]
          rw [List.foldl_cons]
          have hs := worldStep_outputs_congr route converters st st' wf hg hf ha hb
          exact worldFold_outputs_filter route converters rest _ _
            hs.1 hs.2.1 hs.2.2.1 hs.2.2.2

theorem world_main_ledger_eq {ρ γ σ : Type} (route : String → Option σ)
    (converters : σ → Option (ρ → Option (List γ × List γ × List γ × List γ)))
    (processed : List String) (files : List (WorldFile ρ)) :
    (world_main route converters processed files).ledger
      = processed ++ (files.filter (fun f => decide (f.name ∉ processed))).map
          (fun f => f.name) := by
  unfold world_main
  rw [worldFold_ledger]

theorem world_main_marks {ρ γ σ : Type} (route : String → Option σ)
    (converters : σ → Option (ρ → Option (List γ × List γ × List γ × List γ)))
    (processed : List String) (files : List (WorldFile ρ)) :
    ∀ wf ∈ files, wf.name ∈ (world_main route converters processed files).ledger := by
  intro wf hwf
  rw [world_main_ledger_eq]
  by_cases hp : wf.name ∈ processed
  · exact List.mem_append_left _ hp
  · refine List.mem_append_right _ (List.mem_map.mpr ⟨wf, ?_, rfl⟩)
    exact List.mem_filter.mpr ⟨hwf, by simpa using hp⟩

/-- When every file name is already in the ledger, the run is a no-op. -/
theorem world_main_all_processed {ρ γ σ : Type} (route : String → Option σ)
    (converters : σ → Option (ρ → Option (List γ × List γ × List γ × List γ)))
    (processed : List String) (files : List (WorldFile ρ))
    (h : ∀ wf ∈ files, wf.name ∈ processed) :
    world_main route converters processed files
      = { guardian := [], financial := [], agent := [], bestpractice := [],
          ledger := processed } := by
  unfold world_main
  have hnil : files.filter (fun f => decide (f.name ∉ processed)) = [] := by
    rw [List.filter_eq_nil_iff]
    intro a ha
    simp [h a ha]
  rw [hnil]
  rfl

end WorldData

/-- Claim C6 (amended): in the world-data batch converter, every globbed file
name — malformed ones included — ends up in the processed ledger, the ledger
only grows, and dropping the malformed files changes none of the four output
streams (a malformed file is skipped and the batch continues).  The Moltbook
batch converter does not have this protection: a malformed post file aborts
its run (see the counterexample). -/
theorem C6_error_handling {ρ γ σ : Type} (route : String → Option σ)
    (converters : σ → Option (ρ → Option (List γ × List γ × List γ × List γ)))
    (processed : List String) (files : List (WorldData.WorldFile ρ)) :
    (∀ wf ∈ files,
      wf.name ∈ (WorldData.world_main route converters processed files).ledger)
  ∧ processed ⊆ (WorldData.world_main route converters processed files).ledger
  ∧ ((WorldData.world_main route converters processed files).guardian
        = (WorldData.world_main route converters processed
            (files.filter (fun f => f.content.isSome))).guardian
    ∧ (WorldData.world_main route converters processed files).financial
        = (WorldData.world_main route converters processed
            (files.filter (fun f => f.content.isSome))).financial
    ∧ (WorldData.world_main route converters processed files).agent
        = (WorldData.world_main route converters processed
            (files.filter (fun f => f.content.isSome))).agent
    ∧ (WorldData.world_main route converters processed files).bestpractice
        = (WorldData.world_main route converters processed
            (files.filter (fun f => f.content.isSome))).bestpractice) := by
  refine ⟨WorldData.world_main_marks route converters processed files, ?_, ?_⟩
  · rw [WorldData.world_main_ledger_eq]
    exact List.subset_append_left _ _
  · unfold WorldData.world_main
    have hcomm : (files.filter (fun f => f.content.isSome)).filter
          (fun f => decide (f.name ∉ processed))
        = (files.filter (fun f => decide (f.name ∉ processed))).filter
          (fun f => f.content.isSome) := by
      rw [List.filter_filter, List.filter_filter]
      apply List.filter_congr
      intro a _
      exact Bool.and_comm _ _
    rw [hcomm]
    exact WorldData.worldFold_outputs_filter route converters _ _ _ rfl rfl rfl rfl

/-- Claim C6 witness: a run over one malformed file marks it processed. -/
theorem C6_witness :
    "scam_1.json"
      ∈ (WorldData.world_main (fun _ => some ())
          (fun _ => some (fun _ => some (([] : List Unit), [], [], [])))
          [] [⟨"scam_1.json", (none : Option Unit)⟩]).ledger :=
  (C6_error_handling (fun _ => some ())
      (fun _ => some (fun _ => some (([] : List Unit), [], [], [])))
      [] [⟨"scam_1.json", (none : Option Unit)⟩]).1
    ⟨"scam_1.json", (none : Option Unit)⟩ (List.mem_singleton.mpr rfl)

/-- Claim C6 counterexample: the Moltbook batch converter aborts on a
malformed post file instead of skipping it and marking it converted — the
unguarded `json.loads` propagates the parse error, so no ledger is saved. -/
theorem C6_counterexample :
    Moltbook.convert_all (fun _ _ => ([] : List Unit)) []
      [("post_bad.json", none)] = Except.error "post_bad.json" := rfl

/-- Claim C4: batch conversion is at-most-once per source identifier in both
batch converters: a full second run on the unchanged raw set synthesizes
nothing new and leaves the ledger unchanged; the ledger only grows; and every
consumed identifier is marked converted whether its synthesis yielded zero,
one, or several scenarios. -/
theorem C4_at_most_once {α ρ γ σ : Type} (synth : String → Moltbook.Post → List α)
    (processed : List String) (raw : List (String × Moltbook.Post))
    (route : String → Option σ)
    (converters : σ → Option (ρ → Option (List γ × List γ × List γ × List γ)))
    (wprocessed : List String) (files : List (WorldData.WorldFile ρ)) :
    (Moltbook.convert_all synth processed (raw.map (fun fp => (fp.1, some fp.2)))
        = Except.ok (Moltbook.convert_all_parsed synth processed raw))
  ∧ processed ⊆ (Moltbook.convert_all_parsed synth processed raw).2
  ∧ (∀ fp ∈ raw,
      Moltbook.pidOf fp.1 fp.2 ∈ (Moltbook.convert_all_parsed synth processed raw).2)
  ∧ Moltbook.convert_all_parsed synth
        ((Moltbook.convert_all_parsed synth processed raw).2) raw
      = ([], (Moltbook.convert_all_parsed synth processed raw).2)
  ∧ (∀ wf ∈ files,
      wf.name ∈ (WorldData.world_main route converters wprocessed files).ledger)
  ∧ WorldData.world_main route converters
        (WorldData.world_main route converters wprocessed files).ledger files
      = { guardian := [], financial := [], agent := [], bestpractice := [],
          ledger := (WorldData.world_main route converters wprocessed files).ledger } := by
  have hledger := Moltbook.convert_all_parsed_snd synth processed raw
  have hmem : ∀ fp ∈ raw,
      Moltbook.pidOf fp.1 fp.2 ∈ (Moltbook.convert_all_parsed synth processed raw).2 := by
    intro fp hfp
    rw [hledger]
    rcases Moltbook.buildPosts_mem processed raw fp hfp with h | h
    · exact List.mem_append_left _ h
    · exact List.mem_append_right _ h
  refine ⟨?_, ?_, hmem, ?_, ?_, ?_⟩
  · unfold Moltbook.convert_all
    rw [Moltbook.parseAll_map_some]
    rfl
  · rw [hledger]
    exact List.subset_append_left _ _
  · exact Moltbook.convert_all_parsed_of_all_processed synth _ raw hmem
  · exact WorldData.world_main_marks route converters wprocessed files
  · exact WorldData.world_main_all_processed route converters _ files
      (WorldData.world_main_marks route converters wprocessed files)

/-- Claim C4 witness: a concrete one-file run marks the consumed post id in
the ledger. -/
theorem C4_witness :
    Moltbook.pidOf "post_1.json"
        ⟨some "p1", Moltbook.PyEntity.missing, Moltbook.PyEntity.missing⟩
      ∈ (Moltbook.convert_all_parsed (fun _ _ => ([] : List Unit)) []
          [("post_1.json",
            ⟨some "p1", Moltbook.PyEntity.missing, Moltbook.PyEntity.missing⟩)]).2 :=
  (C4_at_most_once (fun _ _ => ([] : List Unit)) []
      [("post_1.json",
        ⟨some "p1", Moltbook.PyEntity.missing, Moltbook.PyEntity.missing⟩)]
      (fun _ => some ()) (fun _ => some (fun _ => some (([] : List Unit), [], [], [])))
      [] ([] : List (WorldData.WorldFile Unit))).2.2.1
    ("post_1.json", ⟨some "p1", Moltbook.PyEntity.missing, Moltbook.PyEntity.missing⟩)
    (List.mem_singleton.mpr rfl)

namespace GuardianDojo

/-- A fold that conditionally appends one entry per element equals the
filter-then-map of the element list. -/
theorem foldl_condAppend {β : Type} (test : β → List String)
    (g : β → String × List String) :
    ∀ (l : List β) (acc : List (String × List String)),
      l.foldl (fun a b => if test b ≠ [] then a ++ [g b] else a) acc
        = acc ++ (l.filter (fun b => decide (test b ≠ []))).map g
  | [], acc => by simp
  | b :: rest, acc => by
      rw [List.foldl_cons, List.filter_cons]
      by_cases h : test b ≠ []
      · rw [if_pos h, decide_eq_true h]
        simp only [if_true]
        rw [List.map_cons, foldl_condAppend test g rest _]
        simp
      · rw [if_neg h, decide_eq_false h]
        simp only [Bool.false_eq_true, if_false]
        exact foldl_condAppend test g rest acc

/-- Members accumulated by a fold of filtered appends satisfy the filter. -/
theorem foldl_append_filter_mem {β : Type} (f : β → List String)
    (pred : String → Bool) :
    ∀ (l : List β) (acc : List String), (∀ m ∈ acc, pred m = true) →
      ∀ m ∈ l.foldl (fun ms b => ms ++ (f b).filter pred) acc, pred m = true
  | [], _, hacc, m, hm => hacc m hm
  | b :: rest, acc, hacc, m, hm => by
      rw [List.foldl_cons] at hm
      refine foldl_append_filter_mem f pred rest _ ?_ m hm
      intro x hx
      rcases List.mem_append.mp hx with hx | hx
      · exact hacc x hx
      · exact List.of_mem_filter hx

end GuardianDojo

namespace Moltbook

open GuardianDojo

theorem moltbook_detect_signals_eq (text : String) :
    detect_signals text
      = (MANIPULATION_SIGNALS.filter
          (fun cp => decide (catMatches cp.2 (Rex.pyLower text) ≠ []))).map
          (fun cp => (cp.1, dedupFirst (catMatches cp.2 (Rex.pyLower text)))) := by
  simp only [detect_signals]
  rw [foldl_condAppend (fun cp => catMatches cp.2 (Rex.pyLower text))
    (fun cp => (cp.1, dedupFirst (catMatches cp.2 (Rex.pyLower text))))
    MANIPULATION_SIGNALS []]
  simp

theorem catMatches_length (pats : List Rex.RE) (tl : String) {m : String}
    (h : m ∈ catMatches pats tl) : 3 < m.length := by
  have := foldl_append_filter_mem (fun p => Rex.finditer_full p tl)
    (fun m => !m.isEmpty && decide (3 < m.length)) pats []
    (fun x hx => absurd hx (List.not_mem_nil x)) m h
  have hand := (Bool.and_eq_true _ _).mp this
  exact of_decide_eq_true hand.2

end Moltbook

namespace PublicScam

open GuardianDojo

theorem scam_detect_signals_eq (text : String) :
    detect_signals text
      = (SIGNAL_PATTERNS.filter
          (fun cp => decide (catMatches cp.2 (Rex.pyLower text) ≠ []))).map
          (fun cp => (cp.1, catMatches cp.2 (Rex.pyLower text))) := by
  simp only [detect_signals]
  rw [foldl_condAppend (fun cp => catMatches cp.2 (Rex.pyLower text))
    (fun cp => (cp.1, catMatches cp.2 (Rex.pyLower text))) SIGNAL_PATTERNS []]
  simp

end PublicScam

open GuardianDojo in
/-- Claim C7 (amended): the public-scam Signal Detector returns, per present
category, exactly the concatenation over that category's patterns of each
pattern's `findall` results capped at 3 per pattern — duplicates retained and
no per-category cap — and a category is present iff this list is nonempty;
the Moltbook detector deduplicates (first-seen order) and keeps only matches
longer than 3 characters, with categories present iff nonempty, but applies
no cap of 3 at all. -/
theorem C7_detector_structure (text : String) :
    (PublicScam.detect_signals text
      = (PublicScam.SIGNAL_PATTERNS.filter
          (fun cp => decide (PublicScam.catMatches cp.2 (Rex.pyLower text) ≠ []))).map
          (fun cp => (cp.1, PublicScam.catMatches cp.2 (Rex.pyLower text))))
  ∧ (∀ c l, (c, l) ∈ PublicScam.detect_signals text → l ≠ [])
  ∧ (∀ c l, (c, l) ∈ Moltbook.detect_signals text →
      l ≠ [] ∧ l.Nodup ∧ ∀ m ∈ l, 3 < m.length) := by
  refine ⟨PublicScam.scam_detect_signals_eq text, ?_, ?_⟩
  · intro c l hmem
    rw [PublicScam.scam_detect_signals_eq] at hmem
    rcases List.mem_map.mp hmem with ⟨cp, hcp, heq⟩
    have hne : PublicScam.catMatches cp.2 (Rex.pyLower text) ≠ [] :=
      of_decide_eq_true ((List.mem_filter.mp hcp).2)
    have hl : l = PublicScam.catMatches cp.2 (Rex.pyLower text) :=
      ((Prod.mk.injEq _ _ _ _).mp heq).2.symm
    rw [hl]
    exact hne
  · intro c l hmem
    rw [Moltbook.moltbook_detect_signals_eq] at hmem
    rcases List.mem_map.mp hmem with ⟨cp, hcp, heq⟩
    have hne : Moltbook.catMatches cp.2 (Rex.pyLower text) ≠ [] :=
      of_decide_eq_true ((List.mem_filter.mp hcp).2)
    have hl : l = dedupFirst (Moltbook.catMatches cp.2 (Rex.pyLower text)) :=
      ((Prod.mk.injEq _ _ _ _).mp heq).2.symm
    rw [hl]
    exact ⟨dedupFirst_ne_nil hne, dedupFirst_nodup _,
      fun m hm => Moltbook.catMatches_length cp.2 _ (mem_dedupFirst hm)⟩

/-- Claim C7 witness: on the text "act now urgent" the public-scam detector
reports urgency_pressure with two matches, and the Moltbook detector reports
it with one deduplicated match longer than 3 characters. -/
theorem C7_witness :
    ((["act now", "urgent"] : List String) ≠ [])
  ∧ ((["act now"] : List String) ≠ []
      ∧ (["act now"] : List String).Nodup
      ∧ ∀ m ∈ (["act now"] : List String), 3 < m.length) :=
  ⟨(C7_detector_structure "act now urgent").2.1 "urgency_pressure"
      ["act now", "urgent"] (by decide),
   (C7_detector_structure "act now urgent").2.2 "urgency_pressure"
      ["act now"] (by decide)⟩

/-- Claim C7 counterexample: on a text with three occurrences each of two
urgency markers, the public-scam detector returns six entries for the
category — exact repeats are not deduplicated and the per-category total
exceeds the claimed cap of 3 (the cap in the code is per pattern). -/
theorem C7_counterexample :
    PublicScam.detect_signals "urgent urgent urgent act now act now act now"
      = [("urgency_pressure",
          ["act now", "act now", "act now", "urgent", "urgent", "urgent"])]
  ∧ ¬ (["act now", "act now", "act now", "urgent", "urgent", "urgent"] :
        List String).Nodup
  ∧ 3 < (["act now", "act now", "act now", "urgent", "urgent", "urgent"] :
        List String).length :=
  ⟨by decide, by decide, by decide⟩

/-- Claim C8 (amended): apart from the Guardian scenario's fresh `id` and
`convertedAt` timestamp, and the Agent scenario's `convertedAt` timestamp,
every field of the synthesized records is a function of (thread, signals,
post): syntheses differing only in the generated uuid and timestamp agree on
all other fields.  The Agent scenario carries no identifier at all (see the
counterexample). -/
theorem C8_synthesis_determinism (thread : List String)
    (signals : GuardianDojo.SignalMatch) (post : Moltbook.Post)
    (u1 u2 t1 t2 : String) :
    ((Moltbook.to_guardian_dojo_scenario thread signals post u1 t1).map
        Moltbook.eraseGuardianNondet
      = (Moltbook.to_guardian_dojo_scenario thread signals post u2 t2).map
        Moltbook.eraseGuardianNondet)
  ∧ ((Moltbook.to_agent_dojo_scenario thread signals post t1).map
        Moltbook.eraseAgentNondet
      = (Moltbook.to_agent_dojo_scenario thread signals post t2).map
        Moltbook.eraseAgentNondet) := by
  constructor
  · simp only [Moltbook.to_guardian_dojo_scenario]
    split_ifs <;> rfl
  · simp only [Moltbook.to_agent_dojo_scenario]
    split_ifs <;> rfl

/-- Claim C8 counterexample: the Agent Dojo scenario dict has no identifier
key anywhere (neither top level nor in its metadata), so not every
synthesized ScenarioRecord contains a freshly generated unique identifier;
the Guardian scenario does carry one. -/
theorem C8_counterexample :
    "id" ∉ Moltbook.agent_scenario_keys
  ∧ "id" ∉ Moltbook.agent_metadata_keys
  ∧ "id" ∈ Moltbook.guardian_scenario_keys :=
  ⟨by decide, by decide, by decide⟩
